import Mathlib

/-
Verification of the runllm Program Execution Engine against its specification.

This file is a shallow embedding, in Lean 4, of the core modules of the
runllm repository:

  - runllm/validation.py  (JSON candidate discovery and schema-error selection)
  - runllm/templating.py  (prompt template rendering)
  - runllm/pyblocks.py    (sandboxed script blocks)
  - runllm/utils.py       (token estimation heuristics)
  - runllm/executor.py    (the retry/recovery engine, dependency resolution)

External collaborators (the `jsonschema` validator, the LiteLLM model
invoker, the Python `exec` primitive used for script blocks, the parser
producing program descriptors, provider-credential configuration and the
ollama daemon) are modelled as oracle fields of a `World` structure; the
engine's own control flow, error construction and data plumbing are
translated directly from the source.

Python values flowing through the engine are modelled by `JValue`
(JSON-compatible values).  Python dicts are association lists in insertion
order with unique keys; `dictSet` mirrors Python dict assignment (value
replaced in place, new keys appended) and `dictUpdate` mirrors
`dict.update`.  Python floats are modelled exactly as decimal
mantissa/exponent pairs; their serialized text form (`jfloatRepr`) is a
canonical scientific notation rather than CPython's `repr` algorithm -
this affects only the textual rendering of float values, which no claim
depends on.
-/

-- ===== basic Python string helpers =====

/-- Whitespace characters recognised by Python `str.strip()` (ASCII range). -/
def isPySpace (c : Char) : Bool :=
  c = ' ' || c = '\t' || c = '\n' || c = '\r' || c = '\x0b' || c = '\x0c'

def pyStripChars (cs : List Char) : List Char :=
  ((cs.dropWhile isPySpace).reverse.dropWhile isPySpace).reverse

/-- Python `str.strip()`. -/
def pyStrip (s : String) : String := String.mk (pyStripChars s.data)

/-- Codepoint-lexicographic comparison on char lists (Python string ordering). -/
def charListLe : List Char → List Char → Bool
  | [], _ => true
  | _ :: _, [] => false
  | a :: as, b :: bs =>
    if a.toNat < b.toNat then true
    else if b.toNat < a.toNat then false
    else charListLe as bs

/-- Python `<=` on strings: codepoint lexicographic order. -/
def strLe (a b : String) : Bool := charListLe a.data b.data

def beginsWithChars : List Char → List Char → Bool
  | [], _ => true
  | _ :: _, [] => false
  | p :: ps, c :: cs => p = c && beginsWithChars ps cs

/-- Python `str.startswith(pat)`. -/
def strBeginsWith (s pat : String) : Bool := beginsWithChars pat.data s.data

def splitOnCharAux (sep : Char) : List Char → List Char → List (List Char)
  | acc, [] => [acc.reverse]
  | acc, c :: rest =>
    if c = sep then acc.reverse :: splitOnCharAux sep [] rest
    else splitOnCharAux sep (c :: acc) rest

/-- Python `str.split(sep)` for a single-character separator (no maxsplit). -/
def strSplitOnChar (sep : Char) (s : String) : List String :=
  (splitOnCharAux sep [] s.data).map String.mk

def dropThroughChar (sep : Char) : List Char → List Char
  | [] => []
  | c :: rest => if c = sep then rest else dropThroughChar sep rest

/-- Python `s.split(sep, 1)[1]`: everything after the first occurrence of `sep`
(the whole string when `sep` does not occur, matching how the executor only
calls this after a `startswith` check). -/
def strAfterFirst (sep : Char) (s : String) : String :=
  String.mk (dropThroughChar sep s.data)

-- ===== JSON-compatible Python values =====

/-- A JSON-compatible Python value.  Floats are decimal `mant * 10 ^ exp10`
with trailing zeros stripped from the mantissa at construction. -/
inductive JValue where
  | jnull
  | jbool (b : Bool)
  | jint (n : Int)
  | jfloat (mant : Int) (exp10 : Int)
  | jstr (s : String)
  | jarr (items : List JValue)
  | jobj (fields : List (String × JValue))

/-- A Python dict with string keys in insertion order. -/
abbrev PyDict := List (String × JValue)

def dictLookup (k : String) : List (String × α) → Option α
  | [] => none
  | (k2, v) :: rest => if k2 = k then some v else dictLookup k rest

def dictContains (k : String) (d : List (String × α)) : Bool :=
  (dictLookup k d).isSome

/-- Python dict assignment `d[k] = v`: replaces the value in place when the
key exists (keeping its original position), appends otherwise. -/
def dictSet (d : List (String × α)) (k : String) (v : α) : List (String × α) :=
  if dictContains k d then d.map (fun p => if p.1 = k then (k, v) else p)
  else d ++ [(k, v)]

/-- Python `d.update(u)`: key-wise assignment of every entry of `u` into `d`,
in `u`'s order; `u`'s values win on key conflicts. -/
def dictUpdate (d u : List (String × α)) : List (String × α) :=
  u.foldl (fun acc p => dictSet acc p.1 p.2) d

/-- Python `type(x).__name__` for the values the engine inspects. -/
def typeName : JValue → String
  | JValue.jnull => "NoneType"
  | JValue.jbool _ => "bool"
  | JValue.jint _ => "int"
  | JValue.jfloat _ _ => "float"
  | JValue.jstr _ => "str"
  | JValue.jarr _ => "list"
  | JValue.jobj _ => "dict"

-- ===== json.dumps (ensure_ascii) =====

def hexDigitChar (n : Nat) : Char :=
  if n < 10 then Char.ofNat (48 + n) else Char.ofNat (87 + n)

def hex4 (n : Nat) : String :=
  String.mk [hexDigitChar (n / 4096 % 16), hexDigitChar (n / 256 % 16),
             hexDigitChar (n / 16 % 16), hexDigitChar (n % 16)]

/-- Escaping of one character inside a JSON string literal, with
`ensure_ascii=True` semantics (everything outside 0x20..0x7e escaped). -/
def escChar (c : Char) : String :=
  if c = '"' then "\\\""
  else if c = '\\' then "\\\\"
  else if c = '\n' then "\\n"
  else if c = '\t' then "\\t"
  else if c = '\r' then "\\r"
  else if c = '\x08' then "\\b"
  else if c = '\x0c' then "\\f"
  else if c.toNat < 32 then "\\u" ++ hex4 c.toNat
  else if c.toNat ≤ 126 then String.mk [c]
  else if c.toNat < 65536 then "\\u" ++ hex4 c.toNat
  else
    "\\u" ++ hex4 (55296 + (c.toNat - 65536) / 1024) ++
    "\\u" ++ hex4 (56320 + (c.toNat - 65536) % 1024)

def jstrLit (s : String) : String :=
  "\"" ++ String.join (s.data.map escChar) ++ "\""

/-- Serialized form of a float value (canonical scientific notation; see the
header note - CPython renders floats differently but no claim inspects the
rendered text of a float). -/
def jfloatRepr (mant : Int) (exp10 : Int) : String :=
  toString mant ++ "e" ++ toString exp10

mutual
/-- `json.dumps(v, ensure_ascii=True)` with item separator `isep` and
key separator `ksep`, without key sorting (Python sorts via `sortKeysRec`
applied beforehand when `sort_keys=True`). -/
def jdumps (isep ksep : String) : JValue → String
  | JValue.jnull => "null"
  | JValue.jbool b => if b then "true" else "false"
  | JValue.jint n => toString n
  | JValue.jfloat m e => jfloatRepr m e
  | JValue.jstr s => jstrLit s
  | JValue.jarr items => "[" ++ jdumpsItems isep ksep items ++ "]"
  | JValue.jobj fields => "\x7b" ++ jdumpsFields isep ksep fields ++ "\x7d"
termination_by structural v => v
def jdumpsItems (isep ksep : String) : List JValue → String
  | [] => ""
  | [v] => jdumps isep ksep v
  | v :: rest => jdumps isep ksep v ++ isep ++ jdumpsItems isep ksep rest
termination_by structural l => l
def jdumpsFields (isep ksep : String) : List (String × JValue) → String
  | [] => ""
  | [(k, v)] => jstrLit k ++ ksep ++ jdumps isep ksep v
  | (k, v) :: rest =>
    jstrLit k ++ ksep ++ jdumps isep ksep v ++ isep ++ jdumpsFields isep ksep rest
termination_by structural l => l
end

def insertByKeyLe (p : String × JValue) : List (String × JValue) → List (String × JValue)
  | [] => [p]
  | q :: rest => if strLe p.1 q.1 then p :: q :: rest else q :: insertByKeyLe p rest

/-- Sort dict fields by key in Python string order (as `sorted` does for the
`sort_keys=True` path of `json.dumps`). -/
def sortFieldsByKey : List (String × JValue) → List (String × JValue)
  | [] => []
  | p :: rest => insertByKeyLe p (sortFieldsByKey rest)

mutual
/-- Recursively sort every object's keys; composing with `jdumps` gives the
`sort_keys=True` serialization. -/
def sortKeysRec : JValue → JValue
  | JValue.jobj fields => JValue.jobj (sortFieldsByKey (sortKeysFields fields))
  | JValue.jarr items => JValue.jarr (sortKeysItems items)
  | JValue.jnull => JValue.jnull
  | JValue.jbool b => JValue.jbool b
  | JValue.jint n => JValue.jint n
  | JValue.jfloat m e => JValue.jfloat m e
  | JValue.jstr s => JValue.jstr s
termination_by structural v => v
def sortKeysItems : List JValue → List JValue
  | [] => []
  | v :: rest => sortKeysRec v :: sortKeysItems rest
termination_by structural l => l
def sortKeysFields : List (String × JValue) → List (String × JValue)
  | [] => []
  | (k, v) :: rest => (k, sortKeysRec v) :: sortKeysFields rest
termination_by structural l => l
end

/-- `json.dumps(v, sort_keys=True, ensure_ascii=True)` with the default
separators, as used by `extract_json_object_candidates` for deduplication. -/
def canonDumps (v : JValue) : String := jdumps ", " ": " (sortKeysRec v)

/-- The canonical (sorted-key) serialization of a candidate object. -/
def canonKey (o : PyDict) : String := canonDumps (JValue.jobj o)

def indSpaces (n : Nat) : String := String.mk (List.replicate (2 * n) ' ')

mutual
/-- `json.dumps(v, indent=2, ensure_ascii=True)` at nesting level `level`,
used when building the output-contract text. -/
def jdumpsInd (level : Nat) : JValue → String
  | JValue.jarr [] => "[]"
  | JValue.jarr items =>
    "[\n" ++ jdumpsIndItems (level + 1) items ++ "\n" ++ indSpaces level ++ "]"
  | JValue.jobj [] => "\x7b\x7d"
  | JValue.jobj fields =>
    "\x7b\n" ++ jdumpsIndFields (level + 1) fields ++ "\n" ++ indSpaces level ++ "\x7d"
  | v => jdumps ", " ": " v
termination_by structural v => v
def jdumpsIndItems (level : Nat) : List JValue → String
  | [] => ""
  | [v] => indSpaces level ++ jdumpsInd level v
  | v :: rest =>
    indSpaces level ++ jdumpsInd level v ++ ",\n" ++ jdumpsIndItems level rest
termination_by structural l => l
def jdumpsIndFields (level : Nat) : List (String × JValue) → String
  | [] => ""
  | [(k, v)] => indSpaces level ++ jstrLit k ++ ": " ++ jdumpsInd level v
  | (k, v) :: rest =>
    indSpaces level ++ jstrLit k ++ ": " ++ jdumpsInd level v ++ ",\n" ++
    jdumpsIndFields level rest
termination_by structural l => l
end

-- ===== utils.py =====

/-- `estimate_tokens`: `max(1, int(len(text) / 4))`. -/
def estimate_tokens (text : String) : Nat := max 1 (text.length / 4)

/-- `estimate_context_tokens`: token estimate of the compact JSON serialization
of the payload plus the estimate of the prompt. -/
def estimate_context_tokens (payload : PyDict) (prompt : String) : Nat :=
  estimate_tokens (jdumps "," ":" (JValue.jobj payload)) + estimate_tokens prompt

-- ===== the json module's decoder (as exercised through json.loads /
-- JSONDecoder().raw_decode in validation.py) =====

def isJsonWs (c : Char) : Bool := c = ' ' || c = '\t' || c = '\n' || c = '\r'

def skipWs (cs : List Char) : List Char := cs.dropWhile isJsonWs

def isDigitCh (c : Char) : Bool := 48 ≤ c.toNat && c.toNat ≤ 57

def digitsToNat (ds : List Char) : Nat :=
  ds.foldl (fun acc c => acc * 10 + (c.toNat - 48)) 0

def hexVal (c : Char) : Option Nat :=
  if 48 ≤ c.toNat ∧ c.toNat ≤ 57 then some (c.toNat - 48)
  else if 97 ≤ c.toNat ∧ c.toNat ≤ 102 then some (c.toNat - 87)
  else if 65 ≤ c.toNat ∧ c.toNat ≤ 70 then some (c.toNat - 55)
  else none

def parseHex4 : List Char → Option (Nat × List Char)
  | a :: b :: c :: d :: rest =>
    match hexVal a, hexVal b, hexVal c, hexVal d with
    | some x, some y, some z, some u => some (((x * 16 + y) * 16 + z) * 16 + u, rest)
    | _, _, _, _ => none
  | _ => none

/-- Turn a decoded `\uXXXX` codepoint into a `Char`; a lone surrogate (which
Python would keep as an unpaired surrogate code unit, unrepresentable as a
Lean `Char`) becomes U+FFFD. -/
def codeChar (n : Nat) : Char :=
  if n < 55296 then Char.ofNat n
  else if 57344 ≤ n ∧ n < 1114112 then Char.ofNat n
  else '�'

/-- Body of a JSON string (after the opening quote), strict mode: raw control
characters are rejected, the standard escapes and `\uXXXX` (with surrogate
pairing) are decoded. -/
def parseStringBody : Nat → List Char → List Char → Option (String × List Char)
  | 0, _, _ => none
  | Nat.succ f, acc, cs =>
    match cs with
    | [] => none
    | '"' :: rest => some (String.mk acc.reverse, rest)
    | '\\' :: esc =>
      match esc with
      | '"' :: r => parseStringBody f ('"' :: acc) r
      | '\\' :: r => parseStringBody f ('\\' :: acc) r
      | '/' :: r => parseStringBody f ('/' :: acc) r
      | 'b' :: r => parseStringBody f ('\x08' :: acc) r
      | 'f' :: r => parseStringBody f ('\x0c' :: acc) r
      | 'n' :: r => parseStringBody f ('\n' :: acc) r
      | 'r' :: r => parseStringBody f ('\r' :: acc) r
      | 't' :: r => parseStringBody f ('\t' :: acc) r
      | 'u' :: r =>
        (match parseHex4 r with
         | none => none
         | some (n, r2) =>
           if 55296 ≤ n ∧ n < 56320 then
             match r2 with
             | '\\' :: 'u' :: r3 =>
               (match parseHex4 r3 with
                | none => none
                | some (n2, r4) =>
                  if 56320 ≤ n2 ∧ n2 < 57344 then
                    parseStringBody f
                      (codeChar (65536 + (n - 55296) * 1024 + (n2 - 56320)) :: acc) r4
                  else parseStringBody f (codeChar n :: acc) r2)
             | _ => parseStringBody f (codeChar n :: acc) r2
           else parseStringBody f (codeChar n :: acc) r2)
      | _ => none
    | c :: rest => if c.toNat < 32 then none else parseStringBody f (c :: acc) rest

def stripTrailingZeros : Nat → Int → Int → Int × Int
  | 0, m, e => (m, e)
  | Nat.succ f, m, e =>
    if m ≠ 0 ∧ m % 10 = 0 then stripTrailingZeros f (m / 10) (e + 1) else (m, e)

def parseExpTail (rest orig : List Char) : Option Int × List Char :=
  let se : Int × List Char :=
    match rest with
    | '+' :: t => (1, t)
    | '-' :: t => (-1, t)
    | _ => (1, rest)
  let eds := se.2.takeWhile isDigitCh
  if eds.isEmpty then (none, orig)
  else (some (se.1 * (digitsToNat eds : Int)), se.2.drop eds.length)

/-- A JSON number at the current position, following Python's `NUMBER_RE`:
`(-?(?:0|[1-9]\d*))(\.\d+)?([eE][-+]?\d+)?`.  Consumes only the matched
prefix (so `01` parses as `0` leaving `1`). -/
def parseNumber (cs : List Char) : Option (JValue × List Char) :=
  let signSplit : Bool × List Char :=
    match cs with
    | '-' :: r => (true, r)
    | _ => (false, cs)
  let neg := signSplit.1
  match signSplit.2 with
  | [] => none
  | c :: _ =>
    if ¬ isDigitCh c then none
    else
      let cs1 := signSplit.2
      let intDigits := if c = '0' then ['0'] else cs1.takeWhile isDigitCh
      let r1 := cs1.drop intDigits.length
      let fracDigits : List Char :=
        match r1 with
        | '.' :: r2 => r2.takeWhile isDigitCh
        | _ => []
      let r2 := if fracDigits.isEmpty then r1 else r1.drop (1 + fracDigits.length)
      let expParse : Option Int × List Char :=
        match r2 with
        | 'e' :: rest => parseExpTail rest r2
        | 'E' :: rest => parseExpTail rest r2
        | _ => (none, r2)
      if fracDigits.isEmpty && expParse.1.isNone then
        some (JValue.jint (if neg then -(digitsToNat intDigits : Int)
                           else (digitsToNat intDigits : Int)), r1)
      else
        let mant0 : Int := digitsToNat (intDigits ++ fracDigits)
        let mant : Int := if neg then -mant0 else mant0
        let e0 : Int := expParse.1.getD 0 - (fracDigits.length : Int)
        let norm := if mant = 0 then ((0 : Int), (0 : Int))
                    else stripTrailingZeros (intDigits.length + fracDigits.length) mant e0
        some (JValue.jfloat norm.1 norm.2, expParse.2)

mutual
/-- One JSON value at the current position (no leading whitespace skip),
mirroring `JSONDecoder.raw_decode`'s scanner.  The fuel argument only bounds
recursion depth; `rawDecode` supplies enough of it that the parse is a
function of the text alone.  (The non-standard `NaN`/`Infinity` constants
accepted by Python's decoder are not modelled.) -/
def parseVal : Nat → List Char → Option (JValue × List Char)
  | 0, _ => none
  | Nat.succ f, cs =>
    match cs with
    | '\x7b' :: rest =>
      (match skipWs rest with
       | '\x7d' :: r2 => some (JValue.jobj [], r2)
       | cs2 => parseMembers f cs2 [])
    | '[' :: rest =>
      (match skipWs rest with
       | ']' :: r2 => some (JValue.jarr [], r2)
       | cs2 => parseItems f cs2 [])
    | '"' :: rest =>
      (match parseStringBody (rest.length + 1) [] rest with
       | some (s, r2) => some (JValue.jstr s, r2)
       | none => none)
    | 't' :: 'r' :: 'u' :: 'e' :: rest => some (JValue.jbool true, rest)
    | 'f' :: 'a' :: 'l' :: 's' :: 'e' :: rest => some (JValue.jbool false, rest)
    | 'n' :: 'u' :: 'l' :: 'l' :: rest => some (JValue.jnull, rest)
    | _ => parseNumber cs
termination_by structural f _ => f
/-- Object members after `{` + whitespace, accumulating into a dict with
Python's duplicate-key behaviour (first position, last value, via `dictSet`). -/
def parseMembers : Nat → List Char → PyDict → Option (JValue × List Char)
  | 0, _, _ => none
  | Nat.succ f, cs, acc =>
    match cs with
    | '"' :: rest =>
      (match parseStringBody (rest.length + 1) [] rest with
       | none => none
       | some (key, r1) =>
         match skipWs r1 with
         | ':' :: r2 =>
           (match parseVal f (skipWs r2) with
            | none => none
            | some (v, r3) =>
              let acc2 := dictSet acc key v
              match skipWs r3 with
              | ',' :: r4 => parseMembers f (skipWs r4) acc2
              | '\x7d' :: r4 => some (JValue.jobj acc2, r4)
              | _ => none)
         | _ => none)
    | _ => none
termination_by structural f _ _ => f
/-- Array items after `[` + whitespace. -/
def parseItems : Nat → List Char → List JValue → Option (JValue × List Char)
  | 0, _, _ => none
  | Nat.succ f, cs, acc =>
    match parseVal f cs with
    | none => none
    | some (v, r1) =>
      match skipWs r1 with
      | ',' :: r2 => parseItems f (skipWs r2) (acc ++ [v])
      | ']' :: r2 => some (JValue.jarr (acc ++ [v]), r2)
      | _ => none
termination_by structural f _ _ => f
end

/-- `JSONDecoder().raw_decode(s)`: one JSON document starting at position 0,
returning the value and the unconsumed remainder. -/
def rawDecode (cs : List Char) : Option (JValue × List Char) :=
  parseVal (2 * cs.length + 2) cs

/-- `json.loads(s)`: skip leading whitespace, decode one document, require
only whitespace after it. -/
def json_loads (s : String) : Option JValue :=
  match rawDecode (skipWs s.data) with
  | some (v, rest) => if (skipWs rest).isEmpty then some v else none
  | none => none

-- ===== errors.py =====

/-- The structured error envelope (`ErrorPayload` in errors.py).  The
`details` dicts built from external exception text (e.g. the `json_error`
string of RLLM_006, or jsonschema's violation diagnostics for
RLLM_004/RLLM_005) are abstracted to fixed placeholders: they are produced
by external collaborators and no engine decision reads them back. -/
structure ErrorPayload where
  error_code : String
  error_type : String
  message : String
  details : PyDict
  expected_schema : Option JValue
  received_payload : Option JValue
  recovery_hint : Option String
  doc_ref : Option String

def maxRetriesError (mr : Int) : ErrorPayload :=
  ⟨"RLLM_002", "MetadataValidationError", "max_retries must be a non-negative integer.",
   [("max_retries", JValue.jint mr)], none, none,
   some "Set max_retries to 0 or greater.", some "docs/errors.md#RLLM_002"⟩

def debugWrapError (wrap : Int) : ErrorPayload :=
  ⟨"RLLM_002", "MetadataValidationError", "debug_prompt_wrap must be a positive integer.",
   [("debug_prompt_wrap", JValue.jint wrap)], none, none,
   some "Set debug_prompt_wrap to 1 or greater.", some "docs/errors.md#RLLM_002"⟩

def modelRequiredError (llm : PyDict) : ErrorPayload :=
  ⟨"RLLM_002", "MetadataValidationError", "llm.model is required.",
   [("llm", JValue.jobj llm)], none, none,
   some "Set llm.model in .rllm frontmatter or pass --model.", some "docs/errors.md#RLLM_002"⟩

def missingProviderCredentialError (provider key model : String) : ErrorPayload :=
  ⟨"RLLM_014", "MissingProviderCredentialError",
   "Provider credential is missing for selected model.",
   [("provider", JValue.jstr provider), ("missing_env_var", JValue.jstr key),
    ("model", JValue.jstr model)], none, none,
   some ("Set " ++ key ++ " in environment or .env, then retry."),
   some "docs/errors.md#RLLM_014"⟩

def contextWindowExceededError (estimated maxw : Nat) (app : String) : ErrorPayload :=
  ⟨"RLLM_012", "ContextWindowExceededError", "Input exceeds app max_context_window.",
   [("estimated_tokens", JValue.jint estimated), ("max_context_window", JValue.jint maxw),
    ("app", JValue.jstr app)], none, none,
   some "Send smaller input or increase max_context_window in app metadata.",
   some "docs/errors.md#RLLM_012"⟩

/-- RLLM_011, raised by `_extract_content` for a malformed response shape or
non-string message content (the two source variants share code, class and
fatality; they are collapsed into one constructor carrying the reason). -/
def transportShapeError (reason : String) : ErrorPayload :=
  ⟨"RLLM_011", "ExecutionError", "Unexpected LiteLLM response shape.",
   [("reason", JValue.jstr reason)], none, some (JValue.jstr reason),
   some "Verify provider/model response compatibility.", some "docs/errors.md#RLLM_011"⟩

def circularDependencyError (cycle : List String) : ErrorPayload :=
  ⟨"RLLM_008", "DependencyResolutionError", "Circular dependency detected in uses chain.",
   [("cycle", JValue.jarr (cycle.map JValue.jstr))], none, none,
   some "Remove circular references in uses entries.", some "docs/errors.md#RLLM_008"⟩

def pythonBlockFailedError (block_name exc reason : String) (context : PyDict) : ErrorPayload :=
  ⟨"RLLM_009", "PythonBlockExecutionError",
   "Python block \x27" ++ block_name ++ "\x27 failed.",
   [("exception", JValue.jstr exc), ("reason", JValue.jstr reason)], none,
   some (JValue.jobj [("context", JValue.jobj context)]),
   some "Fix python block code or run with --trusted-python if intentionally using broader features.",
   some "docs/errors.md#RLLM_009"⟩

def pythonBlockResultError (v : JValue) : ErrorPayload :=
  ⟨"RLLM_009", "PythonBlockExecutionError", "Python block result must be a dict.",
   [("actual_type", JValue.jstr (typeName v))], none, some v,
   some "Set result = \x7b...\x7d inside python block.", some "docs/errors.md#RLLM_009"⟩

def retryExhaustedError (retries : Int) (schema : JValue) (recv : Option JValue) : ErrorPayload :=
  ⟨"RLLM_013", "RetryExhaustedError", "Model did not satisfy output schema after retries.",
   [("retries", JValue.jint retries)], some schema, recv,
   some "Use a more schema-compliant model or tighten prompt instructions.",
   some "docs/errors.md#RLLM_013"⟩

def notValidJsonError (stripped : String) : ErrorPayload :=
  ⟨"RLLM_006", "OutputSchemaError", "Model output is not valid JSON.",
   [("json_error", JValue.jstr "")], none, some (JValue.jstr stripped),
   some "Respond with only a valid JSON object matching output_schema.",
   some "docs/errors.md#RLLM_006"⟩

def mustBeObjectError (v : JValue) : ErrorPayload :=
  ⟨"RLLM_007", "OutputSchemaError", "Model output must be a JSON object.",
   [("actual_type", JValue.jstr (typeName v))], none, some v,
   some "Respond with a top-level JSON object.", some "docs/errors.md#RLLM_007"⟩

/-- Artifact of the shallow embedding: result of running out of recursion
fuel in `run_program_path` (the Python recursion has no such bound; theorems
about recursive executions are stated with sufficient fuel). -/
def fuelExhaustedArtifact : ErrorPayload :=
  ⟨"LEAN_FUEL", "ModelArtifact", "recursion fuel exhausted", [], none, none, none, none⟩

/-- Artifact standing for the `assert last_err is not None` in `_run_single`
(unreachable: the loop body always records an error before exhausting). -/
def assertionArtifact : ErrorPayload :=
  ⟨"ASSERT", "AssertionError", "last_err is not None", [], none, none, none, none⟩

-- ===== validation.py =====

/-- `validate_json_schema_instance`: delegate the actual JSON-Schema check to
the external `jsonschema` validator (the `valid` oracle); on failure build
the phase-dependent error payload exactly as the source does. -/
def validate_json_schema_instance (valid : JValue → JValue → Bool)
    (inst schema : JValue) (phase : String) : Option ErrorPayload :=
  if valid schema inst then none
  else
    some ⟨if phase = "input" then "RLLM_004" else "RLLM_005",
          if phase = "input" then "InputSchemaError" else "OutputSchemaError",
          phase ++ " schema validation failed.", [], some schema, some inst,
          some "Return a payload that exactly matches the required schema.",
          some ("docs/errors.md#" ++ (if phase = "input" then "RLLM_004" else "RLLM_005"))⟩

/-- The brace scan inside `parse_model_json_payload`'s except-branch: first
successful `raw_decode` at an opening-brace position. -/
def braceScanFirst : List Char → Option JValue
  | [] => none
  | c :: rest =>
    if c = '\x7b' then
      match rawDecode (c :: rest) with
      | some (v, _) => some v
      | none => braceScanFirst rest
    else braceScanFirst rest

/-- `parse_model_json_payload`: strict whole-text parse, brace-scan fallback on
parse failure, then the top-level-object check. -/
def parse_model_json_payload (text : String) : Except ErrorPayload PyDict :=
  let stripped := pyStrip text
  let objOpt : Option JValue :=
    match json_loads stripped with
    | some v => some v
    | none => braceScanFirst stripped.data
  match objOpt with
  | none => Except.error (notValidJsonError stripped)
  | some (JValue.jobj o) => Except.ok o
  | some v => Except.error (mustBeObjectError v)

/-- The scanning loop of `extract_json_object_candidates`: at every
opening-brace position attempt a `raw_decode`, keep decoded dicts,
deduplicate by canonical serialization via the `seen` set. -/
def extractScan : List Char → List String → List PyDict
  | [], _ => []
  | c :: rest, seen =>
    if c = '\x7b' then
      match rawDecode (c :: rest) with
      | some (JValue.jobj o, _) =>
        let key := canonKey o
        if seen.contains key then extractScan rest seen
        else o :: extractScan rest (key :: seen)
      | some _ => extractScan rest seen
      | none => extractScan rest seen
    else extractScan rest seen

/-- `extract_json_object_candidates`: scan the stripped text, and when the
scan found nothing fall back to `parse_model_json_payload` (returning no
candidates when that fails too). -/
def extract_json_object_candidates (text : String) : List PyDict :=
  let stripped := pyStrip text
  let out := extractScan stripped.data []
  if out.isEmpty then
    match parse_model_json_payload stripped with
    | Except.ok only => [only]
    | Except.error _ => []
  else out

-- Specification-side restatement of candidate discovery (used only to compare
-- against the implementation for the candidate-discovery claim).

/-- Spec wording: every opening-brace position whose forgiving single-object
decode succeeds with an object contributes a candidate, in text order. -/
def scanCandidates : List Char → List PyDict
  | [] => []
  | c :: rest =>
    if c = '\x7b' then
      match rawDecode (c :: rest) with
      | some (JValue.jobj o, _) => o :: scanCandidates rest
      | some _ => scanCandidates rest
      | none => scanCandidates rest
    else scanCandidates rest

/-- Spec wording: deduplicate by canonical (sorted-key) serialization,
preserving first-seen order. -/
def dedupByCanon : List PyDict → List String → List PyDict
  | [], _ => []
  | o :: rest, seen =>
    if seen.contains (canonKey o) then dedupByCanon rest seen
    else o :: dedupByCanon rest (canonKey o :: seen)

/-- Candidate discovery as the specification words it. -/
def specCandidates (text : String) : List PyDict :=
  dedupByCanon (scanCandidates (pyStrip text).data) []

-- ===== templating.py =====

def isIdentStartCh (c : Char) : Bool :=
  (97 ≤ c.toNat && c.toNat ≤ 122) || (65 ≤ c.toNat && c.toNat ≤ 90) || c = '_'

def isIdentCh (c : Char) : Bool := isIdentStartCh c || isDigitCh c || c = '.'

/-- Match the token regex of templating.py at the current position:
two opening braces, optional whitespace, `[a-zA-Z_][a-zA-Z0-9_.]*`,
optional whitespace, two closing braces.  Returns the dotted name and the
remainder after the match. -/
def matchToken : List Char → Option (String × List Char)
  | '\x7b' :: '\x7b' :: rest =>
    let r1 := rest.dropWhile isPySpace
    (match r1 with
     | c :: _ =>
       if isIdentStartCh c then
         let ident := r1.takeWhile isIdentCh
         match (r1.drop ident.length).dropWhile isPySpace with
         | '\x7d' :: '\x7d' :: r3 => some (String.mk ident, r3)
         | _ => none
       else none
     | [] => none)
  | _ => none

/-- `_resolve_path`: walk the dotted path through nested dicts; any miss (or
non-dict intermediate value) yields the empty string. -/
def resolvePath : JValue → List String → JValue
  | current, [] => current
  | JValue.jobj o, part :: rest =>
    (match dictLookup part o with
     | some v => resolvePath v rest
     | none => JValue.jstr "")
  | _, _ :: _ => JValue.jstr ""

/-- Python `str()` of a JSON-compatible value (list/dict renderings are
approximated by their JSON text; the engine only ever applies `str` to
scalar values in code paths the claims touch). -/
def pyStr : JValue → String
  | JValue.jstr s => s
  | JValue.jnull => "None"
  | JValue.jbool b => if b then "True" else "False"
  | JValue.jint n => toString n
  | JValue.jfloat m e => jfloatRepr m e
  | v => jdumps ", " ": " v

/-- The replacement function of `render_template`: dict/list values render as
their JSON text, `None` renders empty, other values via `str`. -/
def replValue : JValue → String
  | JValue.jobj o => jdumps ", " ": " (JValue.jobj o)
  | JValue.jarr a => jdumps ", " ": " (JValue.jarr a)
  | JValue.jnull => ""
  | v => pyStr v

def renderChars (data : JValue) : Nat → List Char → List Char
  | 0, cs => cs
  | _, [] => []
  | Nat.succ f, c :: rest =>
    match matchToken (c :: rest) with
    | some (ident, rem) =>
      (replValue (resolvePath data (strSplitOnChar '.' ident))).data ++ renderChars data f rem
    | none => c :: renderChars data f rest

/-- `render_template`: left-to-right non-overlapping substitution of
`\x7b\x7bdotted.path\x7d\x7d` tokens. -/
def render_template (template : String) (data : PyDict) : String :=
  String.mk (renderChars (JValue.jobj data) (template.data.length + 1) template.data)

-- ===== models.py =====

/-- A `with:` entry of a `UseSpec`: template strings are rendered, any other
value passes through as a literal (the `isinstance(in_expr, str)` split). -/
inductive WithExpr where
  | str (s : String)
  | lit (v : JValue)

structure UseSpec where
  name : String
  path : String
  with_map : List (String × WithExpr)

/-- `RLLMProgram` (the program descriptor produced by the external parser).
The purely descriptive `metadata`, `recommended_models` and `tags` fields
are omitted: the engine never reads them. -/
structure RLLMProgram where
  path : String
  name : String
  description : String
  version : String
  author : String
  max_context_window : Nat
  input_schema : JValue
  output_schema : JValue
  llm : PyDict
  llm_params : PyDict
  prompt : String
  recovery_prompt : String
  uses : List UseSpec
  python_pre : Option String
  python_post : Option String

structure RunOptions where
  model_override : Option String
  max_retries : Int
  verbose : Bool
  ollama_auto_pull : Bool
  trusted_python : Bool
  python_memory_limit_mb : Int
  debug_prompt_file : Option String
  debug_prompt_stdout : Bool
  debug_prompt_wrap : Int

structure UsageMetrics where
  latency_ms : Nat
  prompt_tokens : Nat
  completion_tokens : Nat
  total_tokens : Nat

-- ===== oracle interfaces for the external collaborators =====

/-- Token counters exposed by a provider response (`response.usage`); `none`
components model absent or `None` attributes. -/
structure ProviderUsage where
  prompt_tokens : Option Nat
  completion_tokens : Option Nat
  total_tokens : Option Nat

/-- One LiteLLM completion response: either a malformed shape / non-string
content (fatal RLLM_011) or a string body with optional usage counters and
an observed latency. -/
inductive ModelResponse where
  | bad (reason : String)
  | good (content : String) (usage : Option ProviderUsage) (latency_ms : Nat)

/-- The final value of the `result` binding after a script body ran. -/
inductive ScriptVal where
  | mapping (m : PyDict)
  | nonMapping (v : JValue)

/-- Outcome of `exec`-ing one script body: an uncaught exception, a timeout
(raised by the SIGALRM handler and caught like any exception), or normal
completion with the final `result` binding (`none` models `result is None`). -/
inductive ScriptExec where
  | raises (exc reason : String)
  | timesOut
  | completes (result : Option ScriptVal)

structure ModelCall where
  model : String
  prompt : String
  llm_params : PyDict

/-- One row written by `StatsStore.record_run`. -/
structure StatRecord where
  app_path : String
  app_name : String
  model : String
  success : Bool
  output_schema_ok : Bool
  input_schema_ok : Bool
  usage : UsageMetrics

/-- The observable interaction trace of one execution: the model invocations
made (in order) and the stats rows recorded (in order). -/
structure Trace where
  calls : List ModelCall
  stats : List StatRecord

/-- The external collaborators, as deterministic oracles:
`programs` is the parser (`parse_rllm_file`), `valid` the `jsonschema`
verdict, `scripts` the behaviour of `exec` on a script body given the
context dict and trust tier, `completions` the model invoker's response to
the n-th invocation (globally indexed by the number of prior calls),
`requiredKeyMissing` the provider-credential check of config.py, and
`ollamaFailure` the outcome of `ensure_ollama_model`. -/
structure World where
  programs : String → Except ErrorPayload RLLMProgram
  valid : JValue → JValue → Bool
  scripts : String → PyDict → Bool → ScriptExec
  completions : Nat → ModelResponse
  requiredKeyMissing : String → Option (String × String)
  ollamaFailure : String → Bool → Option ErrorPayload

-- ===== pyblocks.py =====

/-- `execute_python_block`: run the body through the sandbox oracle; an
exception or timeout becomes the RLLM_009 "block failed" error, a `None`
result yields the empty mapping, a non-dict result is the RLLM_009
"result must be a dict" error.  (The `signal`-based timeout and the
`RLIMIT_AS` memory-cap machinery are host-OS effects folded into the
oracle's verdict.) -/
def execute_python_block (w : World) (code : String) (context : PyDict)
    (block_name : String) (trusted : Bool) : Except ErrorPayload PyDict :=
  match w.scripts code context trusted with
  | ScriptExec.raises exc reason =>
    Except.error (pythonBlockFailedError block_name exc reason context)
  | ScriptExec.timesOut =>
    Except.error (pythonBlockFailedError block_name "TimeoutError" "Python block timed out" context)
  | ScriptExec.completes none => Except.ok []
  | ScriptExec.completes (some (ScriptVal.mapping m)) => Except.ok m
  | ScriptExec.completes (some (ScriptVal.nonMapping v)) =>
    Except.error (pythonBlockResultError v)

-- ===== executor.py =====

/-- `_extract_usage`: provider counters when present (with the zero-total
fixup), length-heuristic estimates otherwise. -/
def extract_usage (provided : Option ProviderUsage) (prompt content : String)
    (elapsed_ms : Nat) : UsageMetrics :=
  match provided with
  | none =>
    let p := estimate_tokens prompt
    let c := estimate_tokens content
    UsageMetrics.mk elapsed_ms p c (p + c)
  | some u =>
    let p := u.prompt_tokens.getD 0
    let c := u.completion_tokens.getD 0
    let t0 := match u.total_tokens with | none => p + c | some v => v
    UsageMetrics.mk elapsed_ms p c (if t0 = 0 then p + c else t0)

/-- `_prepare_model`: the override when truthy, else the stripped
`llm.model` string; empty is the RLLM_002 error. -/
def prepare_model (prog : RLLMProgram) (opts : RunOptions) : Except ErrorPayload String :=
  let fallback := pyStrip (pyStr ((dictLookup "model" prog.llm).getD (JValue.jstr "")))
  let model := match opts.model_override with
    | some s => if s = "" then fallback else s
    | none => fallback
  if model = "" then Except.error (modelRequiredError prog.llm) else Except.ok model

/-- `_ensure_provider_credentials` via the config oracle (the
`checked_sources` detail listing config files is omitted with the external
config loader). -/
def ensure_provider_credentials (w : World) (model : String) : Option ErrorPayload :=
  match w.requiredKeyMissing model with
  | none => none
  | some (provider, key) => some (missingProviderCredentialError provider key model)

/-- `_validate_context`: the token estimate of payload plus prompt against
`max_context_window`. -/
def validate_context (prog : RLLMProgram) (payload : PyDict) (prompt : String) :
    Option ErrorPayload :=
  let estimated := estimate_context_tokens payload prompt
  if estimated > prog.max_context_window then
    some (contextWindowExceededError estimated prog.max_context_window prog.name)
  else none

/-- `_schema_example` with the depth cutoff expressed as descending fuel
(source counts depth upward and returns `None` past 4; fuel `5 - depth`). -/
def schema_example_f : Nat → JValue → JValue
  | 0, _ => JValue.jnull
  | Nat.succ f, schema =>
    match schema with
    | JValue.jobj s =>
      (match dictLookup "enum" s with
       | some (JValue.jarr (e :: _)) => e
       | _ =>
         let st0 := dictLookup "type" s
         let st : Option JValue :=
           match st0 with
           | some (JValue.jarr l) =>
             (match l.filter (fun x => match x with
                              | JValue.jstr s2 => ¬ (s2 = "null")
                              | _ => true) with
              | x :: _ => some x
              | [] => l.head?)
           | other => other
         let stName : Option String :=
           match st with
           | some (JValue.jstr s2) => some s2
           | _ => none
         if stName = some "object" then
           match dictLookup "properties" s with
           | some (JValue.jobj propsD) =>
             let required : List JValue :=
               match dictLookup "required" s with
               | some (JValue.jarr l) => l
               | _ => propsD.map (fun p => JValue.jstr p.1)
             JValue.jobj (required.foldl (fun out key =>
               match key with
               | JValue.jstr k =>
                 dictSet out k (schema_example_f f ((dictLookup k propsD).getD (JValue.jobj [])))
               | _ => out) [])
           | _ => JValue.jobj []
         else if stName = some "array" then
           JValue.jarr [schema_example_f f ((dictLookup "items" s).getD (JValue.jobj []))]
         else if stName = some "string" then JValue.jstr "example"
         else if stName = some "integer" then JValue.jint 0
         else if stName = some "number" then JValue.jfloat 0 0
         else if stName = some "boolean" then JValue.jbool false
         else JValue.jnull)
    | _ => JValue.jnull

def schema_example (schema : JValue) : JValue := schema_example_f 5 schema

/-- `_build_output_contract`: fixed preamble plus the indent-2 serializations
of the schema and a derived example. -/
def build_output_contract (output_schema : JValue) : String :=
  "Output contract:\n- Return ONLY one valid JSON object.\n- No markdown, no prose, no extra wrappers.\n\nOutput schema (JSON):\n"
  ++ jdumpsInd 0 output_schema
  ++ "\n\nExample output (JSON):\n"
  ++ jdumpsInd 0 (schema_example output_schema)

/-- The built-in recovery instruction appended on retries when the program
declares no recovery prompt. -/
def defaultRecoveryText : String :=
  "Last attempt did not satisfy output_schema. Respond with only a valid JSON object that satisfies output_schema."

/-- `_build_attempt_prompt`: base prompt plus output contract; on retries
additionally the program's recovery prompt, or the built-in default when the
program declares none (empty recovery text). -/
def build_attempt_prompt (rendered_prompt : String) (output_schema : JValue)
    (recovery_prompt : String) (attempt : Nat) : String :=
  let prompt := rendered_prompt ++ "\n\n" ++ build_output_contract output_schema
  if attempt = 0 then prompt
  else if ¬ (recovery_prompt = "") then
    prompt ++ "\n\nRecovery instruction:\n" ++ recovery_prompt
  else
    prompt ++ "\n\nRecovery instruction:\n" ++ defaultRecoveryText

/-- The try-block of `_run_single`'s attempt loop up to a validated object:
candidate discovery, first-validating-candidate selection, and the
strict-parse fallback that re-derives the most specific error. -/
def extract_output (valid : JValue → JValue → Bool) (output_schema : JValue)
    (content : String) : Except ErrorPayload PyDict :=
  let candidates := extract_json_object_candidates content
  match candidates with
  | [] =>
    (match parse_model_json_payload content with
     | Except.error e => Except.error e
     | Except.ok out =>
       match validate_json_schema_instance valid (JValue.jobj out) output_schema "output" with
       | some e => Except.error e
       | none => Except.ok out)
  | _ :: _ =>
    match candidates.find? (fun c => valid output_schema (JValue.jobj c)) with
    | some out => Except.ok out
    | none =>
      (match parse_model_json_payload content with
       | Except.error e => Except.error e
       | Except.ok out =>
         match validate_json_schema_instance valid (JValue.jobj out) output_schema "output" with
         | some e => Except.error e
         | none => Except.ok out)

def statEntry (prog : RLLMProgram) (model : String) (succ ook iok : Bool)
    (u : UsageMetrics) : StatRecord :=
  StatRecord.mk prog.path prog.name model succ ook iok u

/-- The `if program.python_post:` block of `_run_single`: run the post-script
(when declared and non-empty, per Python truthiness) against
`\x7binput, output, uses\x7d`. -/
def post_phase (w : World) (prog : RLLMProgram) (input_payload : PyDict)
    (opts : RunOptions) (dep_outputs : PyDict) (out : PyDict) :
    Except ErrorPayload PyDict :=
  match prog.python_post with
  | none => Except.ok []
  | some code =>
    if code = "" then Except.ok []
    else execute_python_block w code
      [("input", JValue.jobj input_payload), ("output", JValue.jobj out),
       ("uses", JValue.jobj dep_outputs)] "post" opts.trusted_python

/-- The body of the try-block of `_run_single`'s attempt loop: extraction of
a schema-valid object from the raw text, then the post-script whose mapping
is merged on top (`out.update(post)` when `post` is truthy), with no
re-validation of the merged object. -/
def attempt_body (w : World) (prog : RLLMProgram) (input_payload : PyDict)
    (opts : RunOptions) (dep_outputs : PyDict) (content : String) :
    Except ErrorPayload PyDict :=
  match extract_output w.valid prog.output_schema content with
  | Except.error e => Except.error e
  | Except.ok out =>
    match post_phase w prog input_payload opts dep_outputs out with
    | Except.error e => Except.error e
    | Except.ok post =>
      Except.ok (if post.isEmpty then out else dictUpdate out post)

/-- The error codes whose failures consume retry budget (`continue`) in the
attempt loop's except-clause. -/
def retryableCode (c : String) : Bool :=
  c = "RLLM_005" || c = "RLLM_006" || c = "RLLM_007"

/-- The `for attempt in range(max_attempts)` loop of `_run_single`, with
`remaining` attempts left and `attempt` the current index.  Each iteration:
build the attempt prompt, check the context window (raised outside the
try-block: propagates with no stats row), invoke the model (shape errors
also propagate before the try-block), then run extraction and the
post-script inside the try: retryable failures are remembered and consume
an attempt, any other failure records a failed run and re-raises; loop
exhaustion records a failed run and raises RLLM_013 carrying the last
received payload. -/
def attempt_loop (w : World) (prog : RLLMProgram) (input_payload : PyDict)
    (opts : RunOptions) (dep_outputs : PyDict) (rendered model : String)
    (last_err : Option ErrorPayload) (usage : UsageMetrics)
    (attempt : Nat) (remaining : Nat) (tr : Trace) :
    Trace × Except ErrorPayload PyDict :=
  match remaining with
  | 0 =>
    (match last_err with
     | none => (tr, Except.error assertionArtifact)
     | some e =>
       (Trace.mk tr.calls (tr.stats ++ [statEntry prog model false false true usage]),
        Except.error (retryExhaustedError opts.max_retries prog.output_schema e.received_payload)))
  | Nat.succ rem =>
    let attempt_prompt := build_attempt_prompt rendered prog.output_schema prog.recovery_prompt attempt
    match validate_context prog input_payload attempt_prompt with
    | some e => (tr, Except.error e)
    | none =>
      match w.completions tr.calls.length with
      | ModelResponse.bad reason =>
        (Trace.mk (tr.calls ++ [ModelCall.mk model attempt_prompt prog.llm_params]) tr.stats,
         Except.error (transportShapeError reason))
      | ModelResponse.good content pu lat =>
        let tr1 := Trace.mk (tr.calls ++ [ModelCall.mk model attempt_prompt prog.llm_params]) tr.stats
        let u := extract_usage pu attempt_prompt content lat
        match attempt_body w prog input_payload opts dep_outputs content with
        | Except.ok final =>
          (Trace.mk tr1.calls (tr1.stats ++ [statEntry prog model true true true u]),
           Except.ok final)
        | Except.error e =>
          if retryableCode e.error_code then
            attempt_loop w prog input_payload opts dep_outputs rendered model
              (some e) u (attempt + 1) rem tr1
          else
            (Trace.mk tr1.calls (tr1.stats ++ [statEntry prog model false false true u]),
             Except.error e)

/-- The per-dependency loop of `_execute_uses`: cycle check against the call
stack, `with:` evaluation against the parent input and earlier siblings'
outputs, recursive invocation with the stack extended by the parent's path,
and accumulation of outputs under the binding name.  `recurse` is the tied
`_run_program_path` recursion. -/
def uses_loop
    (recurse : String → PyDict → RunOptions → List String → Trace → Trace × Except ErrorPayload PyDict)
    (parent_path : String) (input_payload : PyDict) (opts : RunOptions)
    (stack : List String) :
    List UseSpec → PyDict → Trace → Trace × Except ErrorPayload PyDict
  | [], outputs, tr => (tr, Except.ok outputs)
  | dep :: rest, outputs, tr =>
    if stack.contains dep.path then
      (tr, Except.error (circularDependencyError (stack ++ [dep.path])))
    else
      let child_input : PyDict := dep.with_map.foldl (fun acc p =>
        dictSet acc p.1 (match p.2 with
          | WithExpr.str s =>
            JValue.jstr (render_template s
              [("input", JValue.jobj input_payload), ("uses", JValue.jobj outputs)])
          | WithExpr.lit v => v)) []
      match recurse dep.path child_input opts (stack ++ [parent_path]) tr with
      | (tr2, Except.error e) => (tr2, Except.error e)
      | (tr2, Except.ok child_output) =>
        uses_loop recurse parent_path input_payload opts stack rest
          (dictSet outputs dep.name (JValue.jobj child_output)) tr2

/-- `_execute_uses`. -/
def execute_uses
    (recurse : String → PyDict → RunOptions → List String → Trace → Trace × Except ErrorPayload PyDict)
    (prog : RLLMProgram) (input_payload : PyDict) (opts : RunOptions)
    (stack : List String) (tr : Trace) : Trace × Except ErrorPayload PyDict :=
  uses_loop recurse prog.path input_payload opts stack prog.uses [] tr

/-- `_run_single`: option validation, input-schema validation, dependency
resolution, optional pre-script (its mapping merged into the rendering
context, script keys winning), base-prompt rendering, model selection and
credential/ollama checks, then the attempt loop.  (`_emit_prompt_debug` is
pure logging with no engine-visible effect and is not modelled.) -/
def run_single (w : World)
    (recurse : String → PyDict → RunOptions → List String → Trace → Trace × Except ErrorPayload PyDict)
    (prog : RLLMProgram) (input_payload : PyDict) (opts : RunOptions)
    (stack : List String) (tr : Trace) : Trace × Except ErrorPayload PyDict :=
  if opts.max_retries < 0 then (tr, Except.error (maxRetriesError opts.max_retries))
  else if opts.debug_prompt_wrap ≤ 0 then (tr, Except.error (debugWrapError opts.debug_prompt_wrap))
  else
    match validate_json_schema_instance w.valid (JValue.jobj input_payload) prog.input_schema "input" with
    | some e => (tr, Except.error e)
    | none =>
      match execute_uses recurse prog input_payload opts stack tr with
      | (tr1, Except.error e) => (tr1, Except.error e)
      | (tr1, Except.ok dep_outputs) =>
        let context0 : PyDict :=
          [("input", JValue.jobj input_payload), ("uses", JValue.jobj dep_outputs)]
        let preResult : Except ErrorPayload PyDict :=
          match prog.python_pre with
          | none => Except.ok []
          | some code =>
            if code = "" then Except.ok []
            else execute_python_block w code context0 "pre" opts.trusted_python
        match preResult with
        | Except.error e => (tr1, Except.error e)
        | Except.ok pre =>
          let context := dictUpdate context0 pre
          let rendered := render_template prog.prompt context
          match prepare_model prog opts with
          | Except.error e => (tr1, Except.error e)
          | Except.ok model =>
            match ensure_provider_credentials w model with
            | some e => (tr1, Except.error e)
            | none =>
              match (if strBeginsWith model "ollama/" then
                       w.ollamaFailure (strAfterFirst '/' model) opts.ollama_auto_pull
                     else none) with
              | some e => (tr1, Except.error e)
              | none =>
                attempt_loop w prog input_payload opts dep_outputs rendered model
                  none (UsageMetrics.mk 0 0 0 0) 0 (opts.max_retries + 1).toNat tr1

/-- `_run_program_path`: parse the descriptor for the path (via the parser
oracle) and run it; the `fuel` bound is an artifact of the embedding making
the recursion through the dependency graph well-founded. -/
def run_program_path (w : World) :
    Nat → String → PyDict → RunOptions → List String → Trace →
    Trace × Except ErrorPayload PyDict
  | 0, _, _, _, _, tr => (tr, Except.error fuelExhaustedArtifact)
  | Nat.succ fuel, path, input_payload, opts, stack, tr =>
    match w.programs path with
    | Except.error e => (tr, Except.error e)
    | Except.ok prog =>
      run_single w (run_program_path w fuel) prog input_payload opts stack tr

/-- `run_program` (with explicitly supplied options; the config-autoload
defaults live in the external config loader): empty call stack, fresh
trace. -/
def run_program (w : World) (fuel : Nat) (path : String) (input_payload : PyDict)
    (opts : RunOptions) : Trace × Except ErrorPayload PyDict :=
  run_program_path w fuel path input_payload opts [] (Trace.mk [] [])

-- ===== lemmas: the JSON scanner's result shapes =====

theorem parseItems_shape : ∀ (f : Nat) (cs : List Char) (acc : List JValue)
    (v : JValue) (r : List Char), parseItems f cs acc = some (v, r) →
    ∃ items, v = JValue.jarr items := by
  intro f
  induction f with
  | zero => intro cs acc v r h; simp [parseItems] at h
  | succ f ih =>
    intro cs acc v r h
    simp only [parseItems] at h
    split at h
    · simp at h
    · split at h
      · exact ih _ _ _ _ h
      · simp only [Option.some.injEq, Prod.mk.injEq] at h
        exact ⟨_, h.1.symm⟩
      · simp at h

theorem parseMembers_shape : ∀ (f : Nat) (cs : List Char) (acc : PyDict)
    (v : JValue) (r : List Char), parseMembers f cs acc = some (v, r) →
    ∃ fields, v = JValue.jobj fields := by
  intro f
  induction f with
  | zero => intro cs acc v r h; simp [parseMembers] at h
  | succ f ih =>
    intro cs acc v r h
    simp only [parseMembers] at h
    split at h
    · split at h
      · simp at h
      · split at h
        · split at h
          · simp at h
          · split at h
            · exact ih _ _ _ _ h
            · simp only [Option.some.injEq, Prod.mk.injEq] at h
              exact ⟨_, h.1.symm⟩
            · simp at h
        · simp at h
    · simp at h

theorem parseNumber_shape (cs : List Char) (v : JValue) (r : List Char)
    (h : parseNumber cs = some (v, r)) :
    (∃ n, v = JValue.jint n) ∨ (∃ m e, v = JValue.jfloat m e) := by
  unfold parseNumber at h
  split at h
  case _ neg rest =>
    rcases rest with _ | ⟨c, tail⟩
    · simp at h
    · dsimp only at h
      repeat' split at h
      all_goals
        try simp only [Option.some.injEq, Prod.mk.injEq] at h
      all_goals
        first
          | exact Or.inl ⟨_, h.1.symm⟩
          | exact Or.inr ⟨_, _, h.1.symm⟩
          | simp at h
  case _ =>
    rcases cs with _ | ⟨c, tail⟩
    · simp at h
    · dsimp only at h
      repeat' split at h
      all_goals
        try simp only [Option.some.injEq, Prod.mk.injEq] at h
      all_goals
        first
          | exact Or.inl ⟨_, h.1.symm⟩
          | exact Or.inr ⟨_, _, h.1.symm⟩
          | simp at h

set_option maxHeartbeats 1000000 in
theorem parseVal_obj_head : ∀ (f : Nat) (cs : List Char) (o : PyDict) (r : List Char),
    parseVal f cs = some (JValue.jobj o, r) → ∃ rest, cs = '\x7b' :: rest := by
  intro f
  induction f with
  | zero => intro cs o r h; rw [parseVal.eq_def] at h; exact Option.noConfusion h
  | succ f _ =>
    intro cs o r h
    rw [parseVal.eq_def] at h
    dsimp only at h
    split at h
    · exact ⟨_, rfl⟩
    · exfalso
      split at h
      · simp at h
      · obtain ⟨items, hv⟩ := parseItems_shape _ _ _ _ _ h
        simp at hv
    · exfalso
      split at h
      · simp at h
      · simp at h
    · simp at h
    · simp at h
    · simp at h
    · exfalso
      rcases parseNumber_shape _ _ _ h with ⟨n, hv⟩ | ⟨m, e, hv⟩ <;> simp at hv

theorem rawDecode_obj_head (cs : List Char) (o : PyDict) (r : List Char)
    (h : rawDecode cs = some (JValue.jobj o, r)) : ∃ rest, cs = '\x7b' :: rest :=
  parseVal_obj_head _ _ _ _ h

-- ===== lemmas: strip, scan and dedup =====

theorem pyStripChars_eq (l : List Char) :
    pyStripChars l = List.rdropWhile isPySpace (List.dropWhile isPySpace l) := rfl

theorem pyStripChars_idem (cs : List Char) :
    pyStripChars (pyStripChars cs) = pyStripChars cs := by
  rw [pyStripChars_eq, pyStripChars_eq]
  have hmm : List.dropWhile isPySpace (List.dropWhile isPySpace cs)
      = List.dropWhile isPySpace cs := List.dropWhile_idempotent _ _
  have hA : List.dropWhile isPySpace
        (List.rdropWhile isPySpace (List.dropWhile isPySpace cs))
      = List.rdropWhile isPySpace (List.dropWhile isPySpace cs) := by
    rcases hr : List.rdropWhile isPySpace (List.dropWhile isPySpace cs) with _ | ⟨a, tl⟩
    · rfl
    · obtain ⟨t, ht⟩ := List.rdropWhile_prefix isPySpace (List.dropWhile isPySpace cs)
      rw [hr] at ht
      have hne : List.dropWhile isPySpace cs = a :: (tl ++ t) := by
        rw [← ht]; rfl
      have hpa : ¬ isPySpace a = true := by
        have h2 := List.dropWhile_eq_self_iff.mp hmm
        rw [hne] at h2
        simpa using h2 (by simp)
      simp [List.dropWhile_cons, hpa]
  rw [hA, List.rdropWhile_idempotent]

theorem pyStrip_idem (s : String) : pyStrip (pyStrip s) = pyStrip s := by
  unfold pyStrip
  exact congrArg String.mk (pyStripChars_idem s.data)

theorem braceScanFirst_scan : ∀ (cs : List Char) (o : PyDict),
    braceScanFirst cs = some (JValue.jobj o) → scanCandidates cs ≠ [] := by
  intro cs
  induction cs with
  | nil => intro o h; simp [braceScanFirst] at h
  | cons c rest ih =>
    intro o h hscan
    simp only [braceScanFirst] at h
    simp only [scanCandidates] at hscan
    by_cases hc : c = '\x7b'
    · rw [if_pos hc] at h
      rw [if_pos hc] at hscan
      rcases hrd : rawDecode (c :: rest) with _ | ⟨v, r⟩
      · rw [hrd] at h hscan
        exact ih o h hscan
      · rw [hrd] at h hscan
        simp only [Option.some.injEq] at h
        subst h
        simp at hscan
    · rw [if_neg hc] at h
      rw [if_neg hc] at hscan
      exact ih o h hscan

theorem scanCandidates_of_wsDecode : ∀ (cs rest : List Char) (o : PyDict) (r : List Char),
    cs.dropWhile isJsonWs = '\x7b' :: rest →
    rawDecode ('\x7b' :: rest) = some (JValue.jobj o, r) →
    scanCandidates cs ≠ [] := by
  intro cs
  induction cs with
  | nil => intro rest o r hd; simp at hd
  | cons c tail ih =>
    intro rest o r hd hrd hscan
    simp only [scanCandidates] at hscan
    by_cases hw : isJsonWs c
    · have hc : ¬ (c = '\x7b') := by
        intro hcc
        subst hcc
        simp [isJsonWs] at hw
      rw [List.dropWhile_cons, if_pos hw] at hd
      rw [if_neg hc] at hscan
      exact ih rest o r hd hrd hscan
    · rw [List.dropWhile_cons, if_neg hw] at hd
      simp only [List.cons.injEq] at hd
      obtain ⟨hc, htail⟩ := hd
      subst hc
      subst htail
      rw [if_pos rfl, hrd] at hscan
      simp at hscan

theorem json_loads_obj_scan (s : String) (o : PyDict)
    (h : json_loads s = some (JValue.jobj o)) : scanCandidates s.data ≠ [] := by
  unfold json_loads at h
  rcases hrd : rawDecode (skipWs s.data) with _ | ⟨v, rest⟩
  · rw [hrd] at h; exact Option.noConfusion h
  · rw [hrd] at h
    dsimp only at h
    by_cases he : (skipWs rest).isEmpty
    · rw [if_pos he] at h
      simp only [Option.some.injEq] at h
      subst h
      obtain ⟨rest2, hcs⟩ := rawDecode_obj_head _ _ _ hrd
      rw [hcs] at hrd
      exact scanCandidates_of_wsDecode s.data rest2 o rest hcs hrd
    · rw [if_neg he] at h; exact Option.noConfusion h

theorem dedupByCanon_nil_iff (l : List PyDict) :
    dedupByCanon l [] = [] ↔ l = [] := by
  cases l with
  | nil => simp [dedupByCanon]
  | cons o rest => simp [dedupByCanon]

theorem extractScan_eq_dedup : ∀ (cs : List Char) (seen : List String),
    extractScan cs seen = dedupByCanon (scanCandidates cs) seen := by
  intro cs
  induction cs with
  | nil => intro seen; rfl
  | cons c rest ih =>
    intro seen
    simp only [extractScan, scanCandidates]
    by_cases hc : c = '\x7b'
    · rw [if_pos hc, if_pos hc]
      rcases hrd : rawDecode (c :: rest) with _ | ⟨v, r⟩
      · exact ih seen
      · cases v with
        | jobj o =>
          simp only [dedupByCanon]
          by_cases hseen : seen.contains (canonKey o)
          · rw [if_pos hseen, if_pos hseen]
            exact ih seen
          · rw [if_neg hseen, if_neg hseen]
            rw [ih (canonKey o :: seen)]
        | jnull => exact ih seen
        | jbool b => exact ih seen
        | jint n => exact ih seen
        | jfloat m e => exact ih seen
        | jstr s => exact ih seen
        | jarr a => exact ih seen
    · rw [if_neg hc, if_neg hc]
      exact ih seen

theorem dedupByCanon_sublist : ∀ (l : List PyDict) (seen : List String),
    List.Sublist (dedupByCanon l seen) l := by
  intro l
  induction l with
  | nil => intro seen; simp [dedupByCanon]
  | cons o rest ih =>
    intro seen
    simp only [dedupByCanon]
    by_cases hseen : seen.contains (canonKey o)
    · rw [if_pos hseen]
      exact List.Sublist.cons _ (ih seen)
    · rw [if_neg hseen]
      exact List.Sublist.cons₂ _ (ih _)

theorem mem_dedupByCanon_not_seen : ∀ (l : List PyDict) (seen : List String) (o : PyDict),
    o ∈ dedupByCanon l seen → seen.contains (canonKey o) = false := by
  intro l
  induction l with
  | nil => intro seen o h; simp [dedupByCanon] at h
  | cons p rest ih =>
    intro seen o h
    simp only [dedupByCanon] at h
    by_cases hseen : seen.contains (canonKey p)
    · rw [if_pos hseen] at h
      exact ih seen o h
    · rw [if_neg hseen] at h
      rcases List.mem_cons.mp h with heq | hmem
      · subst heq
        exact Bool.eq_false_iff.mpr hseen
      · have h2 := ih _ o hmem
        simp only [List.contains_cons, Bool.or_eq_false_iff] at h2
        exact h2.2

theorem dedupByCanon_pairwise : ∀ (l : List PyDict) (seen : List String),
    (dedupByCanon l seen).Pairwise (fun a b => canonKey a ≠ canonKey b) := by
  intro l
  induction l with
  | nil => intro seen; simp [dedupByCanon]
  | cons p rest ih =>
    intro seen
    simp only [dedupByCanon]
    by_cases hseen : seen.contains (canonKey p)
    · rw [if_pos hseen]
      exact ih seen
    · rw [if_neg hseen]
      refine List.Pairwise.cons ?_ (ih _)
      intro b hb
      have h2 := mem_dedupByCanon_not_seen _ _ _ hb
      simp only [List.contains_cons, Bool.or_eq_false_iff, beq_eq_false_iff_ne] at h2
      exact fun hk => h2.1 (hk ▸ rfl)

/-- Claim C7: candidate discovery is a deterministic function of the input
text.  `extract_json_object_candidates` coincides with the specification-side
description `specCandidates` (scan the trimmed text left to right, attempt a
single-object decode at every opening-brace position, keep only decoded JSON
objects, deduplicate by canonical sorted-key serialization preserving
first-seen order); additionally the result is a subsequence of the positional
scan (first-seen order) and its canonical serializations are pairwise
distinct.  Determinism over a fixed text is immediate: both sides are pure
functions of the text. -/
theorem c7_candidate_discovery (text : String) :
    extract_json_object_candidates text = specCandidates text ∧
    List.Sublist (extract_json_object_candidates text)
      (scanCandidates (pyStrip text).data) ∧
    (extract_json_object_candidates text).Pairwise
      (fun a b => canonKey a ≠ canonKey b) := by
  have hmain : extract_json_object_candidates text = specCandidates text := by
    unfold extract_json_object_candidates specCandidates
    dsimp only
    rw [extractScan_eq_dedup]
    by_cases hscan : scanCandidates (pyStrip text).data = []
    · rw [hscan]
      simp only [dedupByCanon, List.isEmpty_nil, if_true]
      rcases hp : parse_model_json_payload (pyStrip text) with e | o
      · rfl
      · exfalso
        unfold parse_model_json_payload at hp
        dsimp only at hp
        rw [pyStrip_idem] at hp
        rcases hl : json_loads (pyStrip text) with _ | v
        · rw [hl] at hp
          dsimp only at hp
          rcases hb : braceScanFirst (pyStrip text).data with _ | v
          · rw [hb] at hp
            exact Except.noConfusion hp
          · rw [hb] at hp
            cases v with
            | jobj o2 => exact braceScanFirst_scan _ o2 hb hscan
            | jnull => exact Except.noConfusion hp
            | jbool b => exact Except.noConfusion hp
            | jint n => exact Except.noConfusion hp
            | jfloat m e => exact Except.noConfusion hp
            | jstr s => exact Except.noConfusion hp
            | jarr a => exact Except.noConfusion hp
        · rw [hl] at hp
          dsimp only at hp
          cases v with
          | jobj o2 => exact json_loads_obj_scan (pyStrip text) o2 hl hscan
          | jnull => exact Except.noConfusion hp
          | jbool b => exact Except.noConfusion hp
          | jint n => exact Except.noConfusion hp
          | jfloat m e => exact Except.noConfusion hp
          | jstr s => exact Except.noConfusion hp
          | jarr a => exact Except.noConfusion hp
    · have hne : dedupByCanon (scanCandidates (pyStrip text).data) [] ≠ [] := by
        intro hnil
        exact hscan ((dedupByCanon_nil_iff _).mp hnil)
      rw [if_neg (by simpa using hne)]
  refine ⟨hmain, ?_, ?_⟩
  · rw [hmain]
    unfold specCandidates
    exact dedupByCanon_sublist _ _
  · rw [hmain]
    unfold specCandidates
    exact dedupByCanon_pairwise _ _

-- ===== concrete instantiations of the external-oracle world (used by the
-- witnesses and counterexamples) =====

/-- A concrete instantiation of the `jsonschema` oracle: a faithful checker
for the fragment of JSON Schema used by the concrete programs below
(object type, string-typed properties, `required`, boolean
`additionalProperties`). -/
def miniValidate (sch inst : JValue) : Bool :=
  match sch, inst with
  | JValue.jobj s, JValue.jobj o =>
    let props : PyDict :=
      match dictLookup "properties" s with | some (JValue.jobj p) => p | _ => []
    let req : List JValue :=
      match dictLookup "required" s with | some (JValue.jarr l) => l | _ => []
    let addl : Bool :=
      match dictLookup "additionalProperties" s with | some (JValue.jbool b) => b | _ => true
    (req.all (fun k => match k with | JValue.jstr ks => dictContains ks o | _ => true)) &&
    (o.all (fun p =>
      match dictLookup p.1 props with
      | some (JValue.jobj ps) =>
        (match dictLookup "type" ps with
         | some (JValue.jstr t) =>
           if t = "string" then (match p.2 with | JValue.jstr _ => true | _ => false)
           else true
         | _ => true)
      | _ => addl))
  | _, _ => false

def strProp (k : String) : String × JValue := (k, JValue.jobj [("type", JValue.jstr "string")])

/-- Schema `\x7btype: object, properties: \x7bk: \x7btype: string\x7d ...\x7d, required: [...],
additionalProperties: false\x7d` over the given keys. -/
def objSchema (keys : List String) : JValue :=
  JValue.jobj [("type", JValue.jstr "object"),
               ("properties", JValue.jobj (keys.map strProp)),
               ("required", JValue.jarr (keys.map JValue.jstr)),
               ("additionalProperties", JValue.jbool false)]

def optsA : RunOptions := ⟨none, 1, false, false, false, 256, none, false, 100⟩

def optsZero : RunOptions := ⟨none, 0, false, false, false, 256, none, false, 100⟩

def progSummary : RLLMProgram :=
  ⟨"/apps/summary.rllm", "summary", "d", "0.1.0", "t", 8000,
   objSchema ["text"], objSchema ["summary"],
   [("model", JValue.jstr "openai/gpt-4o-mini")], [],
   "Return JSON: \x7b\x7binput.text\x7d\x7d", "", [], none, none⟩

/-- World for spec Scenario A: the model replies `not json`, then a
schema-compliant object with provider usage counters. -/
def wA : World :=
  ⟨fun p => if p = "/apps/summary.rllm" then Except.ok progSummary
            else Except.error fuelExhaustedArtifact,
   miniValidate,
   fun _ _ _ => ScriptExec.completes none,
   fun n => if n = 0 then ModelResponse.good "not json" none 5
            else ModelResponse.good "\x7b\"summary\":\"ok\"\x7d" (some ⟨some 10, some 6, some 16⟩) 7,
   fun _ => none,
   fun _ _ => none⟩

def progPost : RLLMProgram :=
  ⟨"/apps/post.rllm", "post", "d", "0.1.0", "t", 8000,
   objSchema ["text"], objSchema ["summary"],
   [("model", JValue.jstr "openai/gpt-4o-mini")], [],
   "Return JSON: \x7b\x7binput.text\x7d\x7d", "", [],
   none, some "result = \x7b\"extra\": \"x\"\x7d"⟩

/-- World with a post-script that returns an extra key, pushing the merged
output outside `output_schema` (which forbids additional properties). -/
def wPost : World :=
  ⟨fun _ => Except.ok progPost,
   miniValidate,
   fun _ _ _ => ScriptExec.completes (some (ScriptVal.mapping [("extra", JValue.jstr "x")])),
   fun _ => ModelResponse.good "\x7b\"summary\":\"ok\"\x7d" none 5,
   fun _ => none,
   fun _ _ => none⟩

def progCyc : RLLMProgram :=
  ⟨"/apps/a.rllm", "a", "d", "0.1.0", "t", 8000,
   objSchema [], objSchema ["summary"],
   [("model", JValue.jstr "m")], [],
   "p", "", [⟨"self", "/apps/a.rllm", []⟩], none, none⟩

/-- World with a self-referential `uses` edge. -/
def wCyc : World :=
  ⟨fun _ => Except.ok progCyc, miniValidate,
   fun _ _ _ => ScriptExec.completes none,
   fun _ => ModelResponse.good "\x7b\"summary\":\"ok\"\x7d" none 5,
   fun _ => none, fun _ _ => none⟩

def progBig : RLLMProgram :=
  ⟨"/apps/big.rllm", "big", "d", "0.1.0", "t", 10,
   objSchema ["text"], objSchema ["summary"],
   [("model", JValue.jstr "m")], [],
   "This prompt is long enough to overflow the tiny ten token context window limit for sure.",
   "", [], none, none⟩

/-- World for spec Scenario C: the prompt overflows a tiny context window. -/
def wBig : World :=
  ⟨fun _ => Except.ok progBig, miniValidate,
   fun _ _ _ => ScriptExec.completes none,
   fun _ => ModelResponse.good "\x7b\"summary\":\"ok\"\x7d" none 5,
   fun _ => none, fun _ _ => none⟩

def progPre : RLLMProgram :=
  ⟨"/apps/pre.rllm", "pre", "d", "0.1.0", "t", 8000,
   objSchema ["text"], objSchema ["summary"],
   [("model", JValue.jstr "m")], [],
   "Say: \x7b\x7binput.text\x7d\x7d", "", [],
   some "result = \x7b\"input\": \x7b\"text\": \"override\"\x7d\x7d", none⟩

/-- World with a pre-script whose returned mapping rebinds `input`. -/
def wPre : World :=
  ⟨fun _ => Except.ok progPre, miniValidate,
   fun _ _ _ => ScriptExec.completes (some (ScriptVal.mapping
     [("input", JValue.jobj [("text", JValue.jstr "override")])])),
   fun _ => ModelResponse.good "\x7b\"summary\":\"ok\"\x7d" none 5,
   fun _ => none, fun _ _ => none⟩

-- ===== Claim C2 =====

/-- Claim C2: whenever the next `UseSpec`'s absolute path already appears in
the active call stack, the dependency walk fails right there with the
circular-dependency error (code RLLM_008) whose `cycle` detail is the full
stack extended by the offending path, and the trace is returned unchanged -
in particular no model invocation is made for the cyclic node. -/
theorem c2_circular_dependency
    (recurse : String → PyDict → RunOptions → List String → Trace → Trace × Except ErrorPayload PyDict)
    (parent_path : String) (input_payload : PyDict) (opts : RunOptions)
    (stack : List String) (dep : UseSpec) (rest : List UseSpec)
    (outputs : PyDict) (tr : Trace)
    (h : stack.contains dep.path = true) :
    uses_loop recurse parent_path input_payload opts stack (dep :: rest) outputs tr
      = (tr, Except.error (circularDependencyError (stack ++ [dep.path]))) ∧
    (circularDependencyError (stack ++ [dep.path])).error_code = "RLLM_008" ∧
    (circularDependencyError (stack ++ [dep.path])).error_type = "DependencyResolutionError" ∧
    (circularDependencyError (stack ++ [dep.path])).details
      = [("cycle", JValue.jarr ((stack ++ [dep.path]).map JValue.jstr))] := by
  refine ⟨?_, rfl, rfl, rfl⟩
  simp only [uses_loop]
  rw [if_pos h]

/-- Witness for C2 at a concrete self-referential program. -/
theorem c2_circular_dependency_witness :
    uses_loop (run_program_path wCyc 4) "/apps/a.rllm" [] optsA ["/apps/a.rllm"]
      [⟨"self", "/apps/a.rllm", []⟩] [] (Trace.mk [] [])
      = (Trace.mk [] [],
         Except.error (circularDependencyError ["/apps/a.rllm", "/apps/a.rllm"])) :=
  (c2_circular_dependency (run_program_path wCyc 4) "/apps/a.rllm" [] optsA
    ["/apps/a.rllm"] ⟨"self", "/apps/a.rllm", []⟩ [] [] (Trace.mk [] []) (by rfl)).1

-- ===== Claim C8 =====

/-- Claim C8: the script sandbox returns the mapping the script produced in
its `result` binding (the empty mapping when the binding was left untouched
or holds `None`), while a produced non-mapping value, an uncaught exception
and a timeout are each the hard RLLM_009 script-execution error carrying the
block's name. -/
theorem c8_script_result_contract (w : World) (code : String) (context : PyDict)
    (block_name : String) (trusted : Bool) :
    (∀ m, w.scripts code context trusted = ScriptExec.completes (some (ScriptVal.mapping m)) →
      execute_python_block w code context block_name trusted = Except.ok m) ∧
    (w.scripts code context trusted = ScriptExec.completes none →
      execute_python_block w code context block_name trusted = Except.ok []) ∧
    (∀ v, w.scripts code context trusted = ScriptExec.completes (some (ScriptVal.nonMapping v)) →
      execute_python_block w code context block_name trusted
        = Except.error (pythonBlockResultError v) ∧
      (pythonBlockResultError v).error_code = "RLLM_009") ∧
    (∀ exc reason, w.scripts code context trusted = ScriptExec.raises exc reason →
      execute_python_block w code context block_name trusted
        = Except.error (pythonBlockFailedError block_name exc reason context) ∧
      (pythonBlockFailedError block_name exc reason context).error_code = "RLLM_009") ∧
    (w.scripts code context trusted = ScriptExec.timesOut →
      execute_python_block w code context block_name trusted
        = Except.error
            (pythonBlockFailedError block_name "TimeoutError" "Python block timed out" context) ∧
      (pythonBlockFailedError block_name "TimeoutError" "Python block timed out"
        context).error_code = "RLLM_009") := by
  refine ⟨?_, ?_, ?_, ?_, ?_⟩
  · intro m h; unfold execute_python_block; rw [h]
  · intro h; unfold execute_python_block; rw [h]
  · intro v h; unfold execute_python_block; rw [h]; exact ⟨rfl, rfl⟩
  · intro exc reason h; unfold execute_python_block; rw [h]; exact ⟨rfl, rfl⟩
  · intro h; unfold execute_python_block; rw [h]; exact ⟨rfl, rfl⟩

/-- Witness for C8: the concrete post-script world returns its mapping. -/
theorem c8_script_result_contract_witness :
    execute_python_block wPost "result = \x7b\"extra\": \"x\"\x7d" [] "post" false
      = Except.ok [("extra", JValue.jstr "x")] :=
  (c8_script_result_contract wPost "result = \x7b\"extra\": \"x\"\x7d" [] "post" false).1
    [("extra", JValue.jstr "x")] (by rfl)

-- ===== Claim C9 =====

/-- Claim C9: for retry attempts (index greater than 0) of a program with an
empty recovery prompt, the attempt prompt is the base prompt plus output
contract extended by the built-in default recovery instruction (telling the
model to respond with only a valid JSON object satisfying output_schema);
attempt 0 sends the base prompt plus output contract with no recovery
text. -/
theorem c9_default_recovery (rendered : String) (output_schema : JValue)
    (recovery : String) (attempt : Nat) :
    (attempt = 0 →
      build_attempt_prompt rendered output_schema recovery attempt
        = rendered ++ "\n\n" ++ build_output_contract output_schema) ∧
    (0 < attempt → recovery = "" →
      build_attempt_prompt rendered output_schema recovery attempt
        = rendered ++ "\n\n" ++ build_output_contract output_schema
          ++ "\n\nRecovery instruction:\n" ++ defaultRecoveryText) ∧
    defaultRecoveryText
      = "Last attempt did not satisfy output_schema. Respond with only a valid JSON object that satisfies output_schema." := by
  refine ⟨?_, ?_, rfl⟩
  · intro h
    subst h
    rfl
  · intro h hrec
    subst hrec
    unfold build_attempt_prompt
    rw [if_neg (Nat.pos_iff_ne_zero.mp h)]
    simp

/-- Witness for C9 at attempt 1 with an empty recovery prompt. -/
theorem c9_default_recovery_witness :
    0 < 1 ∧
    build_attempt_prompt "P" (objSchema ["summary"]) "" 1
      = "P" ++ "\n\n" ++ build_output_contract (objSchema ["summary"])
        ++ "\n\nRecovery instruction:\n" ++ defaultRecoveryText :=
  ⟨by decide, (c9_default_recovery "P" (objSchema ["summary"]) "" 1).2.1 (by decide) rfl⟩

-- ===== lemmas: schema validation, extraction and error codes =====

theorem validate_none_iff (valid : JValue → JValue → Bool) (inst schema : JValue)
    (phase : String) :
    validate_json_schema_instance valid inst schema phase = none ↔
      valid schema inst = true := by
  unfold validate_json_schema_instance
  by_cases h : valid schema inst
  · simp [h]
  · simp [h]

theorem validate_some_code (valid : JValue → JValue → Bool) (inst schema : JValue)
    (phase : String) (e : ErrorPayload)
    (h : validate_json_schema_instance valid inst schema phase = some e) :
    e.error_code = (if phase = "input" then "RLLM_004" else "RLLM_005") := by
  unfold validate_json_schema_instance at h
  by_cases hv : valid schema inst
  · rw [if_pos hv] at h
    exact Option.noConfusion h
  · rw [if_neg hv] at h
    simp only [Option.some.injEq] at h
    subst h
    rfl

theorem parse_model_json_payload_error_code (text : String) (e : ErrorPayload)
    (h : parse_model_json_payload text = Except.error e) :
    e.error_code = "RLLM_006" ∨ e.error_code = "RLLM_007" := by
  unfold parse_model_json_payload at h
  dsimp only at h
  split at h
  · simp only [Except.error.injEq] at h
    subst h
    exact Or.inl rfl
  · exact Except.noConfusion h
  · simp only [Except.error.injEq] at h
    subst h
    exact Or.inr rfl

theorem extract_output_ok_valid (valid : JValue → JValue → Bool) (schema : JValue)
    (content : String) (out : PyDict)
    (h : extract_output valid schema content = Except.ok out) :
    valid schema (JValue.jobj out) = true := by
  unfold extract_output at h
  dsimp only at h
  split at h
  · split at h
    · exact Except.noConfusion h
    · split at h
      · exact Except.noConfusion h
      · simp only [Except.ok.injEq] at h
        subst h
        next hval => exact (validate_none_iff _ _ _ _).mp hval
  · split at h
    · simp only [Except.ok.injEq] at h
      subst h
      next hfind =>
        have := List.find?_some hfind
        simpa using this
    · split at h
      · exact Except.noConfusion h
      · split at h
        · exact Except.noConfusion h
        · simp only [Except.ok.injEq] at h
          subst h
          next hval => exact (validate_none_iff _ _ _ _).mp hval

theorem extract_output_error_retryable (valid : JValue → JValue → Bool)
    (schema : JValue) (content : String) (e : ErrorPayload)
    (h : extract_output valid schema content = Except.error e) :
    retryableCode e.error_code = true := by
  have hout : ∀ e2 : ErrorPayload,
      parse_model_json_payload content = Except.error e2 →
        retryableCode e2.error_code = true := by
    intro e2 h2
    rcases parse_model_json_payload_error_code content e2 h2 with hc | hc <;>
      simp [retryableCode, hc]
  unfold extract_output at h
  dsimp only at h
  split at h
  · split at h
    · simp only [Except.error.injEq] at h
      subst h
      next hp => exact hout _ hp
    · split at h
      · simp only [Except.error.injEq] at h
        subst h
        next hv =>
          have hc := validate_some_code valid _ schema "output" _ hv
          simp only [if_neg (by decide : ¬ ("output" = "input"))] at hc
          simp [retryableCode, hc]
      · exact Except.noConfusion h
  · split at h
    · exact Except.noConfusion h
    · split at h
      · simp only [Except.error.injEq] at h
        subst h
        next hp => exact hout _ hp
      · split at h
        · simp only [Except.error.injEq] at h
          subst h
          next hv =>
            have hc := validate_some_code valid _ schema "output" _ hv
            simp only [if_neg (by decide : ¬ ("output" = "input"))] at hc
            simp [retryableCode, hc]
        · exact Except.noConfusion h

theorem execute_python_block_error_code (w : World) (code : String) (context : PyDict)
    (block_name : String) (trusted : Bool) (e : ErrorPayload)
    (h : execute_python_block w code context block_name trusted = Except.error e) :
    e.error_code = "RLLM_009" := by
  unfold execute_python_block at h
  split at h <;>
    first
      | (simp only [Except.error.injEq] at h; subst h; rfl)
      | exact Except.noConfusion h

-- ===== lemmas: dict update semantics =====

theorem dictLookup_cons (k k1 : String) (v1 : α) (rest : List (String × α)) :
    dictLookup k ((k1, v1) :: rest) = if k1 = k then some v1 else dictLookup k rest := rfl

theorem dictContains_cons_ne (k k1 : String) (v1 : α) (rest : List (String × α))
    (hk : ¬ (k1 = k)) :
    dictContains k ((k1, v1) :: rest) = dictContains k rest := by
  unfold dictContains
  rw [dictLookup_cons, if_neg hk]

theorem dictContains_iff_mem (l : List (String × α)) (k : String) :
    dictContains k l = true ↔ k ∈ l.map Prod.fst := by
  induction l with
  | nil => simp [dictContains, dictLookup]
  | cons p rest ih =>
    rcases p with ⟨k1, v1⟩
    by_cases hk : k1 = k
    · subst hk
      simp [dictContains, dictLookup]
    · rw [dictContains_cons_ne _ _ _ _ hk]
      simp only [List.map_cons, List.mem_cons]
      constructor
      · intro h; exact Or.inr (ih.mp h)
      · intro h
        rcases h with h | h
        · exact absurd h.symm hk
        · exact ih.mpr h

theorem lookup_mapset_self (k : String) (v : α) :
    ∀ (d : List (String × α)), dictContains k d = true →
    dictLookup k (d.map (fun p => if p.1 = k then (k, v) else p)) = some v := by
  intro d
  induction d with
  | nil => intro h; simp [dictContains, dictLookup] at h
  | cons p rest ih =>
    intro h
    rcases p with ⟨k1, v1⟩
    rw [List.map_cons]
    by_cases hk : k1 = k
    · rw [if_pos (show ((k1, v1) : String × α).1 = k from hk), dictLookup_cons, if_pos rfl]
    · rw [if_neg (show ¬ ((k1, v1) : String × α).1 = k from hk), dictLookup_cons, if_neg hk]
      apply ih
      rw [dictContains_cons_ne _ _ _ _ hk] at h
      exact h

theorem lookup_append_self (k : String) (v : α) :
    ∀ (d : List (String × α)), dictContains k d = false →
    dictLookup k (d ++ [(k, v)]) = some v := by
  intro d
  induction d with
  | nil => intro _; simp [dictLookup]
  | cons p rest ih =>
    intro h
    rcases p with ⟨k1, v1⟩
    by_cases hk : k1 = k
    · exfalso
      subst hk
      simp [dictContains, dictLookup] at h
    · rw [List.cons_append, dictLookup_cons, if_neg hk]
      apply ih
      rw [dictContains_cons_ne _ _ _ _ hk] at h
      exact h

theorem dictLookup_dictSet_self (d : List (String × α)) (k : String) (v : α) :
    dictLookup k (dictSet d k v) = some v := by
  unfold dictSet
  by_cases hc : dictContains k d
  · rw [if_pos hc]
    exact lookup_mapset_self k v d hc
  · rw [if_neg hc]
    exact lookup_append_self k v d (by simpa using hc)

theorem lookup_mapset_ne (k k2 : String) (v : α) (hne : ¬ (k = k2)) :
    ∀ (d : List (String × α)),
    dictLookup k2 (d.map (fun p => if p.1 = k then (k, v) else p)) = dictLookup k2 d := by
  intro d
  induction d with
  | nil => rfl
  | cons p rest ih =>
    rcases p with ⟨k1, v1⟩
    rw [List.map_cons]
    by_cases hk : k1 = k
    · rw [if_pos (show ((k1, v1) : String × α).1 = k from hk), dictLookup_cons, if_neg hne,
        dictLookup_cons, if_neg (hk ▸ hne)]
      exact ih
    · rw [if_neg (show ¬ ((k1, v1) : String × α).1 = k from hk), dictLookup_cons, dictLookup_cons]
      by_cases h2 : k1 = k2
      · rw [if_pos h2, if_pos h2]
      · rw [if_neg h2, if_neg h2]
        exact ih

theorem lookup_append_ne (k k2 : String) (v : α) (hne : ¬ (k = k2)) :
    ∀ (d : List (String × α)),
    dictLookup k2 (d ++ [(k, v)]) = dictLookup k2 d := by
  intro d
  induction d with
  | nil => simp [dictLookup, hne]
  | cons p rest ih =>
    rcases p with ⟨k1, v1⟩
    rw [List.cons_append, dictLookup_cons, dictLookup_cons]
    by_cases h2 : k1 = k2
    · rw [if_pos h2, if_pos h2]
    · rw [if_neg h2, if_neg h2]
      exact ih

theorem dictLookup_dictSet_ne (d : List (String × α)) (k k2 : String) (v : α)
    (hne : ¬ (k = k2)) :
    dictLookup k2 (dictSet d k v) = dictLookup k2 d := by
  unfold dictSet
  by_cases hc : dictContains k d
  · rw [if_pos hc]
    exact lookup_mapset_ne k k2 v hne d
  · rw [if_neg hc]
    exact lookup_append_ne k k2 v hne d

theorem dictUpdate_lookup_not_contains : ∀ (u d : List (String × α)) (k : String),
    dictContains k u = false → dictLookup k (dictUpdate d u) = dictLookup k d := by
  intro u
  induction u with
  | nil => intro d k _; rfl
  | cons p rest ih =>
    intro d k h
    rcases p with ⟨k1, v1⟩
    have hstep : dictUpdate d ((k1, v1) :: rest) = dictUpdate (dictSet d k1 v1) rest := rfl
    rw [hstep]
    have h1 : ¬ (k1 = k) := by
      intro he
      subst he
      simp [dictContains, dictLookup] at h
    have h2 : dictContains k rest = false := by
      rw [dictContains_cons_ne _ _ _ _ h1] at h
      exact h
    rw [ih (dictSet d k1 v1) k h2]
    exact dictLookup_dictSet_ne d k1 k v1 h1

theorem dictUpdate_lookup_of_mem : ∀ (u d : List (String × α)) (k : String) (v : α),
    (u.map Prod.fst).Nodup → dictLookup k u = some v →
    dictLookup k (dictUpdate d u) = some v := by
  intro u
  induction u with
  | nil => intro d k v _ h; simp [dictLookup] at h
  | cons p rest ih =>
    intro d k v hnd h
    rcases p with ⟨k1, v1⟩
    have hstep : dictUpdate d ((k1, v1) :: rest) = dictUpdate (dictSet d k1 v1) rest := rfl
    rw [hstep]
    simp only [List.map_cons, List.nodup_cons] at hnd
    by_cases hk : k1 = k
    · subst hk
      rw [dictLookup_cons, if_pos rfl] at h
      simp only [Option.some.injEq] at h
      have hnm : dictContains k1 rest = false := by
        by_contra hcb
        have := (dictContains_iff_mem rest k1).mp (by simpa using hcb)
        exact hnd.1 this
      rw [dictUpdate_lookup_not_contains rest _ k1 hnm]
      rw [dictLookup_dictSet_self]
      rw [h]
    · rw [dictLookup_cons, if_neg hk] at h
      exact ih (dictSet d k1 v1) k v hnd.2 h

-- ===== lemmas: the attempt loop =====

theorem attempt_loop_context_exceeded (w : World) (prog : RLLMProgram)
    (inp : PyDict) (opts : RunOptions) (dep : PyDict) (rendered model : String)
    (last_err : Option ErrorPayload) (usage : UsageMetrics) (attempt rem : Nat)
    (tr : Trace)
    (h : prog.max_context_window < estimate_context_tokens inp
        (build_attempt_prompt rendered prog.output_schema prog.recovery_prompt attempt)) :
    attempt_loop w prog inp opts dep rendered model last_err usage attempt
        (Nat.succ rem) tr
      = (tr, Except.error (contextWindowExceededError
          (estimate_context_tokens inp
            (build_attempt_prompt rendered prog.output_schema prog.recovery_prompt attempt))
          prog.max_context_window prog.name)) := by
  rw [attempt_loop]
  have hv : validate_context prog inp
      (build_attempt_prompt rendered prog.output_schema prog.recovery_prompt attempt)
      = some (contextWindowExceededError
          (estimate_context_tokens inp
            (build_attempt_prompt rendered prog.output_schema prog.recovery_prompt attempt))
          prog.max_context_window prog.name) := by
    unfold validate_context
    rw [if_pos (by omega)]
  rw [hv]


theorem attempt_body_ok_shape (w : World) (prog : RLLMProgram) (inp : PyDict)
    (opts : RunOptions) (dep : PyDict) (content : String) (final : PyDict)
    (h : attempt_body w prog inp opts dep content = Except.ok final) :
    ∃ base post, extract_output w.valid prog.output_schema content = Except.ok base ∧
      w.valid prog.output_schema (JValue.jobj base) = true ∧
      final = (if post.isEmpty then base else dictUpdate base post) ∧
      (prog.python_post = none → post = []) := by
  unfold attempt_body at h
  rcases hx : extract_output w.valid prog.output_schema content with e | base
  · rw [hx] at h; exact Except.noConfusion h
  · rw [hx] at h
    dsimp only at h
    rcases hp : post_phase w prog inp opts dep base with e | post
    · rw [hp] at h; exact Except.noConfusion h
    · rw [hp] at h
      simp only [Except.ok.injEq] at h
      refine ⟨base, post, rfl, extract_output_ok_valid _ _ _ _ hx, h.symm, ?_⟩
      intro hnone
      unfold post_phase at hp
      rw [hnone] at hp
      simp only [Except.ok.injEq] at hp
      exact hp.symm

theorem attempt_body_error_code (w : World) (prog : RLLMProgram) (inp : PyDict)
    (opts : RunOptions) (dep : PyDict) (content : String) (e : ErrorPayload)
    (h : attempt_body w prog inp opts dep content = Except.error e) :
    retryableCode e.error_code = true ∨ e.error_code = "RLLM_009" := by
  unfold attempt_body at h
  rcases hx : extract_output w.valid prog.output_schema content with e2 | base
  · rw [hx] at h
    simp only [Except.error.injEq] at h
    subst h
    exact Or.inl (extract_output_error_retryable _ _ _ _ hx)
  · rw [hx] at h
    dsimp only at h
    rcases hp : post_phase w prog inp opts dep base with e2 | post
    · rw [hp] at h
      simp only [Except.error.injEq] at h
      subst h
      unfold post_phase at hp
      rcases hpost : prog.python_post with _ | code
      · rw [hpost] at hp; exact Except.noConfusion hp
      · rw [hpost] at hp
        dsimp only at hp
        by_cases hco : code = ""
        · rw [if_pos hco] at hp; exact Except.noConfusion hp
        · rw [if_neg hco] at hp
          exact Or.inr (execute_python_block_error_code _ _ _ _ _ _ hp)
    · rw [hp] at h
      exact Except.noConfusion h

theorem attempt_loop_calls_extend (w : World) (prog : RLLMProgram)
    (inp : PyDict) (opts : RunOptions) (dep : PyDict) (rendered model : String) :
    ∀ (remaining attempt : Nat) (last_err : Option ErrorPayload)
      (usage : UsageMetrics) (tr : Trace),
    ∃ ext, (attempt_loop w prog inp opts dep rendered model last_err usage
        attempt remaining tr).1.calls = tr.calls ++ ext := by
  intro remaining
  induction remaining with
  | zero =>
    intro attempt last_err usage tr
    rcases last_err with _ | e
    · exact ⟨[], (List.append_nil tr.calls).symm⟩
    · exact ⟨[], (List.append_nil tr.calls).symm⟩
  | succ rem ih =>
    intro attempt last_err usage tr
    rw [attempt_loop.eq_def]
    dsimp only
    rcases hv : validate_context prog inp
        (build_attempt_prompt rendered prog.output_schema prog.recovery_prompt attempt)
      with _ | e
    · dsimp only
      rcases hc : w.completions tr.calls.length with reason | ⟨content, pu, lat⟩
      · exact ⟨_, rfl⟩
      · dsimp only
        rcases hb : attempt_body w prog inp opts dep content with e2 | final
        · dsimp only
          by_cases hr : retryableCode e2.error_code
          · rw [if_pos hr]
            obtain ⟨ext2, hext⟩ := ih (attempt + 1) (some e2)
              (extract_usage pu (build_attempt_prompt rendered prog.output_schema
                prog.recovery_prompt attempt) content lat)
              (Trace.mk (tr.calls ++ [ModelCall.mk model
                (build_attempt_prompt rendered prog.output_schema prog.recovery_prompt attempt)
                prog.llm_params]) tr.stats)
            refine ⟨ModelCall.mk model (build_attempt_prompt rendered prog.output_schema
              prog.recovery_prompt attempt) prog.llm_params :: ext2, ?_⟩
            rw [hext]
            simp
          · rw [if_neg hr]
            exact ⟨_, rfl⟩
        · exact ⟨_, rfl⟩
    · exact ⟨[], (List.append_nil tr.calls).symm⟩

theorem attempt_loop_calls_le (w : World) (prog : RLLMProgram)
    (inp : PyDict) (opts : RunOptions) (dep : PyDict) (rendered model : String) :
    ∀ (remaining attempt : Nat) (last_err : Option ErrorPayload)
      (usage : UsageMetrics) (tr : Trace),
    (attempt_loop w prog inp opts dep rendered model last_err usage
        attempt remaining tr).1.calls.length ≤ tr.calls.length + remaining := by
  intro remaining
  induction remaining with
  | zero =>
    intro attempt last_err usage tr
    rcases last_err with _ | e
    · exact Nat.le_refl _
    · exact Nat.le_refl _
  | succ rem ih =>
    intro attempt last_err usage tr
    rw [attempt_loop.eq_def]
    dsimp only
    rcases hv : validate_context prog inp
        (build_attempt_prompt rendered prog.output_schema prog.recovery_prompt attempt)
      with _ | e
    · dsimp only
      rcases hc : w.completions tr.calls.length with reason | ⟨content, pu, lat⟩
      · simp only [List.length_append, List.length_cons, List.length_nil]
        omega
      · dsimp only
        rcases hb : attempt_body w prog inp opts dep content with e2 | final
        · dsimp only
          by_cases hr : retryableCode e2.error_code
          · rw [if_pos hr]
            have h2 := ih (attempt + 1) (some e2)
              (extract_usage pu (build_attempt_prompt rendered prog.output_schema
                prog.recovery_prompt attempt) content lat)
              (Trace.mk (tr.calls ++ [ModelCall.mk model
                (build_attempt_prompt rendered prog.output_schema prog.recovery_prompt attempt)
                prog.llm_params]) tr.stats)
            simp only [List.length_append, List.length_cons, List.length_nil] at h2
            omega
          · rw [if_neg hr]
            simp only [List.length_append, List.length_cons, List.length_nil]
            omega
        · simp only [List.length_append, List.length_cons, List.length_nil]
          omega
    · exact Nat.le_add_right _ _

theorem attempt_loop_ok_calls (w : World) (prog : RLLMProgram)
    (inp : PyDict) (opts : RunOptions) (dep : PyDict) (rendered model : String) :
    ∀ (remaining attempt : Nat) (last_err : Option ErrorPayload)
      (usage : UsageMetrics) (tr tr2 : Trace) (out : PyDict),
    attempt_loop w prog inp opts dep rendered model last_err usage attempt remaining tr
        = (tr2, Except.ok out) →
    tr.calls.length + 1 ≤ tr2.calls.length := by
  intro remaining
  induction remaining with
  | zero =>
    intro attempt last_err usage tr tr2 out h
    rcases last_err with _ | e
    · simp [attempt_loop] at h
    · simp [attempt_loop] at h
  | succ rem ih =>
    intro attempt last_err usage tr tr2 out h
    rw [attempt_loop.eq_def] at h
    dsimp only at h
    rcases hv : validate_context prog inp
        (build_attempt_prompt rendered prog.output_schema prog.recovery_prompt attempt)
      with _ | e
    · rw [hv] at h
      dsimp only at h
      rcases hc : w.completions tr.calls.length with reason | ⟨content, pu, lat⟩
      · rw [hc] at h
        simp at h
      · rw [hc] at h
        dsimp only at h
        rcases hb : attempt_body w prog inp opts dep content with e2 | final
        · rw [hb] at h
          dsimp only at h
          by_cases hr : retryableCode e2.error_code
          · rw [if_pos hr] at h
            have h2 := ih (attempt + 1) (some e2)
              (extract_usage pu (build_attempt_prompt rendered prog.output_schema
                prog.recovery_prompt attempt) content lat)
              (Trace.mk (tr.calls ++ [ModelCall.mk model
                (build_attempt_prompt rendered prog.output_schema prog.recovery_prompt attempt)
                prog.llm_params]) tr.stats) tr2 out h
            simp only [List.length_append, List.length_cons, List.length_nil] at h2
            omega
          · rw [if_neg hr] at h
            simp at h
        · rw [hb] at h
          dsimp only at h
          simp only [Prod.mk.injEq] at h
          rw [← h.1]
          simp only [List.length_append, List.length_cons, List.length_nil]
          omega
    · rw [hv] at h
      simp at h

theorem attempt_loop_ok_shape (w : World) (prog : RLLMProgram)
    (inp : PyDict) (opts : RunOptions) (dep : PyDict) (rendered model : String) :
    ∀ (remaining attempt : Nat) (last_err : Option ErrorPayload)
      (usage : UsageMetrics) (tr tr2 : Trace) (out : PyDict),
    attempt_loop w prog inp opts dep rendered model last_err usage attempt remaining tr
        = (tr2, Except.ok out) →
    ∃ base post, w.valid prog.output_schema (JValue.jobj base) = true ∧
      out = (if post.isEmpty then base else dictUpdate base post) ∧
      (prog.python_post = none → post = []) := by
  intro remaining
  induction remaining with
  | zero =>
    intro attempt last_err usage tr tr2 out h
    rcases last_err with _ | e
    · simp [attempt_loop] at h
    · simp [attempt_loop] at h
  | succ rem ih =>
    intro attempt last_err usage tr tr2 out h
    rw [attempt_loop.eq_def] at h
    dsimp only at h
    rcases hv : validate_context prog inp
        (build_attempt_prompt rendered prog.output_schema prog.recovery_prompt attempt)
      with _ | e
    · rw [hv] at h
      dsimp only at h
      rcases hc : w.completions tr.calls.length with reason | ⟨content, pu, lat⟩
      · rw [hc] at h
        simp at h
      · rw [hc] at h
        dsimp only at h
        rcases hb : attempt_body w prog inp opts dep content with e2 | final
        · rw [hb] at h
          dsimp only at h
          by_cases hr : retryableCode e2.error_code
          · rw [if_pos hr] at h
            exact ih (attempt + 1) (some e2) _ _ tr2 out h
          · rw [if_neg hr] at h
            simp at h
        · rw [hb] at h
          dsimp only at h
          simp only [Prod.mk.injEq, Except.ok.injEq] at h
          obtain ⟨base, post, _, hval, hmerge, hnone⟩ :=
            attempt_body_ok_shape w prog inp opts dep content final hb
          exact ⟨base, post, hval, h.2 ▸ hmerge, hnone⟩
    · rw [hv] at h
      simp at h

theorem attempt_loop_stats_extend (w : World) (prog : RLLMProgram)
    (inp : PyDict) (opts : RunOptions) (dep : PyDict) (rendered model : String) :
    ∀ (remaining attempt : Nat) (last_err : Option ErrorPayload)
      (usage : UsageMetrics) (tr : Trace),
    ∃ ext, (attempt_loop w prog inp opts dep rendered model last_err usage
        attempt remaining tr).1.stats = tr.stats ++ ext ∧ ext.length ≤ 1 := by
  intro remaining
  induction remaining with
  | zero =>
    intro attempt last_err usage tr
    rcases last_err with _ | e
    · exact ⟨[], (List.append_nil tr.stats).symm, by simp⟩
    · exact ⟨[statEntry prog model false false true usage], rfl, by simp⟩
  | succ rem ih =>
    intro attempt last_err usage tr
    rw [attempt_loop.eq_def]
    dsimp only
    rcases hv : validate_context prog inp
        (build_attempt_prompt rendered prog.output_schema prog.recovery_prompt attempt)
      with _ | e
    · dsimp only
      rcases hc : w.completions tr.calls.length with reason | ⟨content, pu, lat⟩
      · exact ⟨[], (List.append_nil tr.stats).symm, by simp⟩
      · dsimp only
        rcases hb : attempt_body w prog inp opts dep content with e2 | final
        · dsimp only
          by_cases hr : retryableCode e2.error_code
          · rw [if_pos hr]
            exact ih (attempt + 1) (some e2) _ _
          · rw [if_neg hr]
            exact ⟨[statEntry prog model false false true _], rfl, by simp⟩
        · exact ⟨[statEntry prog model true true true _], rfl, by simp⟩
    · exact ⟨[], (List.append_nil tr.stats).symm, by simp⟩

theorem attempt_loop_ok_stats (w : World) (prog : RLLMProgram)
    (inp : PyDict) (opts : RunOptions) (dep : PyDict) (rendered model : String) :
    ∀ (remaining attempt : Nat) (last_err : Option ErrorPayload)
      (usage : UsageMetrics) (tr tr2 : Trace) (out : PyDict),
    attempt_loop w prog inp opts dep rendered model last_err usage attempt remaining tr
        = (tr2, Except.ok out) →
    ∃ u, tr2.stats = tr.stats ++ [statEntry prog model true true true u] := by
  intro remaining
  induction remaining with
  | zero =>
    intro attempt last_err usage tr tr2 out h
    rcases last_err with _ | e
    · simp [attempt_loop] at h
    · simp [attempt_loop] at h
  | succ rem ih =>
    intro attempt last_err usage tr tr2 out h
    rw [attempt_loop.eq_def] at h
    dsimp only at h
    rcases hv : validate_context prog inp
        (build_attempt_prompt rendered prog.output_schema prog.recovery_prompt attempt)
      with _ | e
    · rw [hv] at h
      dsimp only at h
      rcases hc : w.completions tr.calls.length with reason | ⟨content, pu, lat⟩
      · rw [hc] at h
        simp at h
      · rw [hc] at h
        dsimp only at h
        rcases hb : attempt_body w prog inp opts dep content with e2 | final
        · rw [hb] at h
          dsimp only at h
          by_cases hr : retryableCode e2.error_code
          · rw [if_pos hr] at h
            have hih := ih (attempt + 1) (some e2) _ _ tr2 out h
            exact hih
          · rw [if_neg hr] at h
            simp at h
        · rw [hb] at h
          dsimp only at h
          simp only [Prod.mk.injEq] at h
          refine ⟨extract_usage pu (build_attempt_prompt rendered prog.output_schema
            prog.recovery_prompt attempt) content lat, ?_⟩
          rw [← h.1]
    · rw [hv] at h
      simp at h

theorem validate_context_some_code (prog : RLLMProgram) (payload : PyDict)
    (prompt : String) (e : ErrorPayload)
    (h : validate_context prog payload prompt = some e) :
    e.error_code = "RLLM_012" := by
  unfold validate_context at h
  dsimp only at h
  split at h
  · rw [← Option.some.inj h]
    rfl
  · exact Option.noConfusion h

theorem attempt_loop_err13_stats (w : World) (prog : RLLMProgram)
    (inp : PyDict) (opts : RunOptions) (dep : PyDict) (rendered model : String) :
    ∀ (remaining attempt : Nat) (last_err : Option ErrorPayload)
      (usage : UsageMetrics) (tr tr2 : Trace) (e : ErrorPayload),
    attempt_loop w prog inp opts dep rendered model last_err usage attempt remaining tr
        = (tr2, Except.error e) →
    e.error_code = "RLLM_013" →
    ∃ u, tr2.stats = tr.stats ++ [statEntry prog model false false true u] := by
  intro remaining
  induction remaining with
  | zero =>
    intro attempt last_err usage tr tr2 e h he
    rcases last_err with _ | e0
    · rw [attempt_loop] at h
      simp only [Prod.mk.injEq, Except.error.injEq] at h
      rw [← h.2] at he
      exact absurd he (by decide)
    · rw [attempt_loop] at h
      simp only [Prod.mk.injEq, Except.error.injEq] at h
      exact ⟨usage, by rw [← h.1]⟩
  | succ rem ih =>
    intro attempt last_err usage tr tr2 e h he
    rw [attempt_loop.eq_def] at h
    dsimp only at h
    rcases hv : validate_context prog inp
        (build_attempt_prompt rendered prog.output_schema prog.recovery_prompt attempt)
      with _ | e1
    · rw [hv] at h
      dsimp only at h
      rcases hc : w.completions tr.calls.length with reason | ⟨content, pu, lat⟩
      · rw [hc] at h
        simp only [Prod.mk.injEq, Except.error.injEq] at h
        rw [← h.2] at he
        simp [transportShapeError] at he
      · rw [hc] at h
        dsimp only at h
        rcases hb : attempt_body w prog inp opts dep content with e2 | final
        · rw [hb] at h
          dsimp only at h
          by_cases hr : retryableCode e2.error_code
          · rw [if_pos hr] at h
            have hih := ih (attempt + 1) (some e2) _ _ tr2 e h he
            exact hih
          · rw [if_neg hr] at h
            simp only [Prod.mk.injEq, Except.error.injEq] at h
            exact ⟨extract_usage pu (build_attempt_prompt rendered prog.output_schema
              prog.recovery_prompt attempt) content lat, by rw [← h.1]⟩
        · rw [hb] at h
          simp at h
    · rw [hv] at h
      simp only [Prod.mk.injEq, Except.error.injEq] at h
      have he2 : e1.error_code = "RLLM_013" := by rw [h.2]; exact he
      have hcod := validate_context_some_code prog inp _ e1 hv
      rw [hcod] at he2
      exact absurd he2 (by decide)

theorem attempt_loop_one_shot (w : World) (prog : RLLMProgram)
    (inp : PyDict) (opts : RunOptions) (dep : PyDict) (rendered model : String)
    (attempt : Nat) (last_err : Option ErrorPayload) (usage : UsageMetrics)
    (tr tr2 : Trace) (r : Except ErrorPayload PyDict)
    (h : attempt_loop w prog inp opts dep rendered model last_err usage attempt 1 tr
        = (tr2, r))
    (hok : (∃ out, r = Except.ok out) ∨
      (∃ e, r = Except.error e ∧ e.error_code = "RLLM_013")) :
    tr2.calls.length = tr.calls.length + 1 := by
  rw [attempt_loop.eq_def] at h
  dsimp only at h
  rcases hv : validate_context prog inp
      (build_attempt_prompt rendered prog.output_schema prog.recovery_prompt attempt)
    with _ | e1
  · rw [hv] at h
    dsimp only at h
    rcases hc : w.completions tr.calls.length with reason | ⟨content, pu, lat⟩
    · rw [hc] at h
      simp only [Prod.mk.injEq] at h
      rw [← h.1]
      simp
    · rw [hc] at h
      dsimp only at h
      rcases hb : attempt_body w prog inp opts dep content with e2 | final
      · rw [hb] at h
        dsimp only at h
        by_cases hr : retryableCode e2.error_code
        · rw [if_pos hr] at h
          rw [attempt_loop] at h
          simp only [Prod.mk.injEq] at h
          rw [← h.1]
          simp
        · rw [if_neg hr] at h
          simp only [Prod.mk.injEq] at h
          rw [← h.1]
          simp
      · rw [hb] at h
        dsimp only at h
        simp only [Prod.mk.injEq] at h
        rw [← h.1]
        simp
  · rw [hv] at h
    simp only [Prod.mk.injEq] at h
    exfalso
    rcases hok with ⟨out, ho⟩ | ⟨e, ho, hcode⟩
    · rw [ho] at h
      exact Except.noConfusion h.2
    · rw [ho] at h
      have he : e1 = e := Except.error.inj h.2
      have hcod := validate_context_some_code prog inp _ e1 hv
      rw [← he, hcod] at hcode
      exact absurd hcode (by decide)

theorem attempt_loop_first_call (w : World) (prog : RLLMProgram)
    (inp : PyDict) (opts : RunOptions) (dep : PyDict) (rendered model : String)
    (attempt : Nat) (last_err : Option ErrorPayload) (usage : UsageMetrics)
    (rem : Nat) (tr tr2 : Trace) (r : Except ErrorPayload PyDict)
    (h : attempt_loop w prog inp opts dep rendered model last_err usage attempt
        (Nat.succ rem) tr = (tr2, r))
    (hv : validate_context prog inp
        (build_attempt_prompt rendered prog.output_schema prog.recovery_prompt attempt)
      = none) :
    ∃ rest, tr2.calls = tr.calls ++
      ModelCall.mk model
        (build_attempt_prompt rendered prog.output_schema prog.recovery_prompt attempt)
        prog.llm_params :: rest := by
  rw [attempt_loop.eq_def] at h
  dsimp only at h
  rw [hv] at h
  dsimp only at h
  rcases hc : w.completions tr.calls.length with reason | ⟨content, pu, lat⟩
  · rw [hc] at h
    simp only [Prod.mk.injEq] at h
    refine ⟨[], ?_⟩
    rw [← h.1]
  · rw [hc] at h
    dsimp only at h
    rcases hb : attempt_body w prog inp opts dep content with e2 | final
    · rw [hb] at h
      dsimp only at h
      by_cases hr : retryableCode e2.error_code
      · rw [if_pos hr] at h
        obtain ⟨ext, hext⟩ := attempt_loop_calls_extend w prog inp opts dep rendered model
          rem (attempt + 1) (some e2)
          (extract_usage pu (build_attempt_prompt rendered prog.output_schema
            prog.recovery_prompt attempt) content lat)
          (Trace.mk (tr.calls ++ [ModelCall.mk model
            (build_attempt_prompt rendered prog.output_schema prog.recovery_prompt attempt)
            prog.llm_params]) tr.stats)
        rw [h] at hext
        refine ⟨ext, ?_⟩
        rw [hext]
        simp
      · rw [if_neg hr] at h
        simp only [Prod.mk.injEq] at h
        refine ⟨[], ?_⟩
        rw [← h.1]
    · rw [hb] at h
      dsimp only at h
      simp only [Prod.mk.injEq] at h
      refine ⟨[], ?_⟩
      rw [← h.1]

theorem attempt_loop_scenario (w : World) (prog : RLLMProgram)
    (inp : PyDict) (opts : RunOptions) (dep : PyDict) (rendered model : String) :
    ∀ (k remaining attempt : Nat) (last_err : Option ErrorPayload)
      (usage : UsageMetrics) (tr : Trace)
      (content : String) (pu : Option ProviderUsage) (lat : Nat) (final : PyDict),
    k < remaining →
    (∀ i, i < k → ∃ ci pui lati ei,
        w.completions (tr.calls.length + i) = ModelResponse.good ci pui lati ∧
        attempt_body w prog inp opts dep ci = Except.error ei ∧
        retryableCode ei.error_code = true) →
    w.completions (tr.calls.length + k) = ModelResponse.good content pu lat →
    attempt_body w prog inp opts dep content = Except.ok final →
    (∀ j, validate_context prog inp
        (build_attempt_prompt rendered prog.output_schema prog.recovery_prompt j) = none) →
    ∃ tr2, attempt_loop w prog inp opts dep rendered model last_err usage attempt
        remaining tr = (tr2, Except.ok final) ∧
      tr2.calls.length = tr.calls.length + (k + 1) := by
  intro k
  induction k with
  | zero =>
    intro remaining attempt last_err usage tr content pu lat final
      hk hfail hgood hbody hvall
    rcases remaining with _ | rem
    · omega
    rw [attempt_loop.eq_def]
    dsimp only
    rw [hvall attempt]
    dsimp only
    rw [Nat.add_zero] at hgood
    rw [hgood]
    dsimp only
    rw [hbody]
    dsimp only
    refine ⟨_, rfl, ?_⟩
    simp
  | succ k ih =>
    intro remaining attempt last_err usage tr content pu lat final
      hk hfail hgood hbody hvall
    rcases remaining with _ | rem
    · omega
    rw [attempt_loop.eq_def]
    dsimp only
    rw [hvall attempt]
    dsimp only
    obtain ⟨c0, pu0, lat0, e0, hc0, hb0, hr0⟩ := hfail 0 (Nat.succ_pos k)
    rw [Nat.add_zero] at hc0
    rw [hc0]
    dsimp only
    rw [hb0]
    dsimp only
    rw [if_pos hr0]
    have htr1 : (Trace.mk (tr.calls ++ [ModelCall.mk model
        (build_attempt_prompt rendered prog.output_schema prog.recovery_prompt attempt)
        prog.llm_params]) tr.stats).calls.length = tr.calls.length + 1 := by
      simp
    obtain ⟨tr2, hloop, hlen⟩ := ih rem (attempt + 1) (some e0)
      (extract_usage pu0 (build_attempt_prompt rendered prog.output_schema
        prog.recovery_prompt attempt) c0 lat0)
      (Trace.mk (tr.calls ++ [ModelCall.mk model
        (build_attempt_prompt rendered prog.output_schema prog.recovery_prompt attempt)
        prog.llm_params]) tr.stats)
      content pu lat final
      (by omega)
      (by
        intro i hi
        obtain ⟨ci, pui, lati, ei, hci, hbi, hri⟩ := hfail (i + 1) (by omega)
        refine ⟨ci, pui, lati, ei, ?_, hbi, hri⟩
        rw [htr1]
        rw [show tr.calls.length + 1 + i = tr.calls.length + (i + 1) from by omega]
        exact hci)
      (by
        rw [htr1]
        rw [show tr.calls.length + 1 + k = tr.calls.length + (k + 1) from by omega]
        exact hgood)
      hbody hvall
    refine ⟨tr2, hloop, ?_⟩
    rw [hlen, htr1]
    omega

-- ===== lemmas: run_single happy paths =====

theorem run_single_happy_nopre (w : World)
    (recurse : String → PyDict → RunOptions → List String → Trace → Trace × Except ErrorPayload PyDict)
    (prog : RLLMProgram) (inp : PyDict) (opts : RunOptions)
    (stack : List String) (tr : Trace) (model : String)
    (hmr : ¬ opts.max_retries < 0)
    (hwrap : ¬ opts.debug_prompt_wrap ≤ 0)
    (hval : validate_json_schema_instance w.valid (JValue.jobj inp) prog.input_schema "input" = none)
    (huses : prog.uses = [])
    (hpre : prog.python_pre = none)
    (hpm : prepare_model prog opts = Except.ok model)
    (hcred : ensure_provider_credentials w model = none)
    (holl : strBeginsWith model "ollama/" = false) :
    run_single w recurse prog inp opts stack tr
      = attempt_loop w prog inp opts []
          (render_template prog.prompt
            [("input", JValue.jobj inp), ("uses", JValue.jobj [])])
          model none (UsageMetrics.mk 0 0 0 0) 0 (opts.max_retries + 1).toNat tr := by
  unfold run_single
  rw [if_neg hmr, if_neg hwrap, hval]
  dsimp only
  rw [show execute_uses recurse prog inp opts stack tr = (tr, Except.ok []) from by
    unfold execute_uses
    rw [huses]
    rfl]
  dsimp only
  rw [hpre]
  dsimp only
  rw [hpm]
  dsimp only
  rw [hcred]
  dsimp only
  rw [if_neg (by simp [holl])]
  rfl

theorem run_single_happy_pre (w : World)
    (recurse : String → PyDict → RunOptions → List String → Trace → Trace × Except ErrorPayload PyDict)
    (prog : RLLMProgram) (inp : PyDict) (opts : RunOptions)
    (stack : List String) (tr : Trace) (model code : String) (m : PyDict)
    (hmr : ¬ opts.max_retries < 0)
    (hwrap : ¬ opts.debug_prompt_wrap ≤ 0)
    (hval : validate_json_schema_instance w.valid (JValue.jobj inp) prog.input_schema "input" = none)
    (huses : prog.uses = [])
    (hpre : prog.python_pre = some code)
    (hcode : ¬ code = "")
    (hexec : execute_python_block w code
        [("input", JValue.jobj inp), ("uses", JValue.jobj [])] "pre" opts.trusted_python
      = Except.ok m)
    (hpm : prepare_model prog opts = Except.ok model)
    (hcred : ensure_provider_credentials w model = none)
    (holl : strBeginsWith model "ollama/" = false) :
    run_single w recurse prog inp opts stack tr
      = attempt_loop w prog inp opts []
          (render_template prog.prompt
            (dictUpdate [("input", JValue.jobj inp), ("uses", JValue.jobj [])] m))
          model none (UsageMetrics.mk 0 0 0 0) 0 (opts.max_retries + 1).toNat tr := by
  unfold run_single
  rw [if_neg hmr, if_neg hwrap, hval]
  dsimp only
  rw [show execute_uses recurse prog inp opts stack tr = (tr, Except.ok []) from by
    unfold execute_uses
    rw [huses]
    rfl]
  dsimp only
  rw [hpre]
  dsimp only
  rw [if_neg hcode, hexec]
  dsimp only
  rw [hpm]
  dsimp only
  rw [hcred]
  dsimp only
  rw [if_neg (by simp [holl])]

theorem run_single_reduce (w : World)
    (recurse : String → PyDict → RunOptions → List String → Trace → Trace × Except ErrorPayload PyDict)
    (prog : RLLMProgram) (inp : PyDict) (opts : RunOptions)
    (stack : List String) (tr : Trace)
    (huses : prog.uses = []) :
    (∃ e, run_single w recurse prog inp opts stack tr = (tr, Except.error e)) ∨
    (∃ rendered model, run_single w recurse prog inp opts stack tr
      = attempt_loop w prog inp opts [] rendered model none (UsageMetrics.mk 0 0 0 0)
          0 (opts.max_retries + 1).toNat tr) := by
  unfold run_single
  by_cases hmr : opts.max_retries < 0
  · rw [if_pos hmr]
    exact Or.inl ⟨_, rfl⟩
  rw [if_neg hmr]
  by_cases hw : opts.debug_prompt_wrap ≤ 0
  · rw [if_pos hw]
    exact Or.inl ⟨_, rfl⟩
  rw [if_neg hw]
  rcases hv : validate_json_schema_instance w.valid (JValue.jobj inp) prog.input_schema "input"
    with _ | e
  · dsimp only
    rw [show execute_uses recurse prog inp opts stack tr = (tr, Except.ok []) from by
      unfold execute_uses
      rw [huses]
      rfl]
    dsimp only
    rcases hpre : prog.python_pre with _ | code
    · dsimp only
      rcases hpm : prepare_model prog opts with e | model
      · exact Or.inl ⟨e, rfl⟩
      · dsimp only
        rcases hcred : ensure_provider_credentials w model with _ | e
        · dsimp only
          rcases holl : (if strBeginsWith model "ollama/" then
              w.ollamaFailure (strAfterFirst '/' model) opts.ollama_auto_pull
            else none) with _ | e
          · dsimp only
            exact Or.inr ⟨_, _, rfl⟩
          · exact Or.inl ⟨e, rfl⟩
        · exact Or.inl ⟨e, rfl⟩
    · dsimp only
      by_cases hc : code = ""
      · rw [if_pos hc]
        dsimp only
        rcases hpm : prepare_model prog opts with e | model
        · exact Or.inl ⟨e, rfl⟩
        · dsimp only
          rcases hcred : ensure_provider_credentials w model with _ | e
          · dsimp only
            rcases holl : (if strBeginsWith model "ollama/" then
                w.ollamaFailure (strAfterFirst '/' model) opts.ollama_auto_pull
              else none) with _ | e
            · dsimp only
              exact Or.inr ⟨_, _, rfl⟩
            · exact Or.inl ⟨e, rfl⟩
          · exact Or.inl ⟨e, rfl⟩
      · rw [if_neg hc]
        rcases hex : execute_python_block w code
            [("input", JValue.jobj inp), ("uses", JValue.jobj [])] "pre" opts.trusted_python
          with e | m
        · exact Or.inl ⟨e, rfl⟩
        · dsimp only
          rcases hpm : prepare_model prog opts with e | model
          · exact Or.inl ⟨e, rfl⟩
          · dsimp only
            rcases hcred : ensure_provider_credentials w model with _ | e
            · dsimp only
              rcases holl : (if strBeginsWith model "ollama/" then
                  w.ollamaFailure (strAfterFirst '/' model) opts.ollama_auto_pull
                else none) with _ | e
              · dsimp only
                exact Or.inr ⟨_, _, rfl⟩
              · exact Or.inl ⟨e, rfl⟩
            · exact Or.inl ⟨e, rfl⟩
  · exact Or.inl ⟨e, rfl⟩

theorem run_single_calls_le (w : World)
    (recurse : String → PyDict → RunOptions → List String → Trace → Trace × Except ErrorPayload PyDict)
    (prog : RLLMProgram) (inp : PyDict) (opts : RunOptions)
    (stack : List String) (tr tr2 : Trace) (r : Except ErrorPayload PyDict)
    (huses : prog.uses = [])
    (h : run_single w recurse prog inp opts stack tr = (tr2, r)) :
    tr2.calls.length ≤ tr.calls.length + (opts.max_retries + 1).toNat := by
  rcases run_single_reduce w recurse prog inp opts stack tr huses with
    ⟨e, heq⟩ | ⟨rendered, model, heq⟩
  · rw [heq] at h
    simp only [Prod.mk.injEq] at h
    rw [← h.1]
    omega
  · rw [heq] at h
    have hle := attempt_loop_calls_le w prog inp opts [] rendered model
      (opts.max_retries + 1).toNat 0 none (UsageMetrics.mk 0 0 0 0) tr
    rw [h] at hle
    exact hle

theorem run_single_ok_calls (w : World)
    (recurse : String → PyDict → RunOptions → List String → Trace → Trace × Except ErrorPayload PyDict)
    (prog : RLLMProgram) (inp : PyDict) (opts : RunOptions)
    (stack : List String) (tr tr2 : Trace) (out : PyDict)
    (huses : prog.uses = [])
    (h : run_single w recurse prog inp opts stack tr = (tr2, Except.ok out)) :
    tr.calls.length + 1 ≤ tr2.calls.length := by
  rcases run_single_reduce w recurse prog inp opts stack tr huses with
    ⟨e, heq⟩ | ⟨rendered, model, heq⟩
  · rw [heq] at h
    simp at h
  · rw [heq] at h
    exact attempt_loop_ok_calls w prog inp opts [] rendered model
      (opts.max_retries + 1).toNat 0 none (UsageMetrics.mk 0 0 0 0) tr tr2 out h

theorem run_single_ok_shape (w : World)
    (recurse : String → PyDict → RunOptions → List String → Trace → Trace × Except ErrorPayload PyDict)
    (prog : RLLMProgram) (inp : PyDict) (opts : RunOptions)
    (stack : List String) (tr tr2 : Trace) (out : PyDict)
    (h : run_single w recurse prog inp opts stack tr = (tr2, Except.ok out)) :
    ∃ base post, w.valid prog.output_schema (JValue.jobj base) = true ∧
      out = (if post.isEmpty then base else dictUpdate base post) ∧
      (prog.python_post = none → post = []) := by
  unfold run_single at h
  by_cases hmr : opts.max_retries < 0
  · rw [if_pos hmr] at h
    simp at h
  rw [if_neg hmr] at h
  by_cases hw : opts.debug_prompt_wrap ≤ 0
  · rw [if_pos hw] at h
    simp at h
  rw [if_neg hw] at h
  rcases hv : validate_json_schema_instance w.valid (JValue.jobj inp) prog.input_schema "input"
    with _ | e
  · rw [hv] at h
    dsimp only at h
    rcases hu : execute_uses recurse prog inp opts stack tr with ⟨tr1, er | dep⟩
    · rw [hu] at h
      simp at h
    · rw [hu] at h
      dsimp only at h
      rcases hpr : (match prog.python_pre with
          | none => Except.ok []
          | some code =>
            if code = "" then Except.ok []
            else execute_python_block w code
              [("input", JValue.jobj inp), ("uses", JValue.jobj dep)] "pre" opts.trusted_python :
            Except ErrorPayload PyDict)
        with e | pre
      · rw [hpr] at h
        simp at h
      · rw [hpr] at h
        dsimp only at h
        rcases hpm : prepare_model prog opts with e | model
        · rw [hpm] at h
          simp at h
        · rw [hpm] at h
          dsimp only at h
          rcases hcred : ensure_provider_credentials w model with _ | e
          · rw [hcred] at h
            dsimp only at h
            rcases holl : (if strBeginsWith model "ollama/" then
                w.ollamaFailure (strAfterFirst '/' model) opts.ollama_auto_pull
              else none) with _ | e
            · rw [holl] at h
              dsimp only at h
              exact attempt_loop_ok_shape w prog inp opts dep _ model
                (opts.max_retries + 1).toNat 0 none (UsageMetrics.mk 0 0 0 0) tr1 tr2 out h
            · rw [holl] at h
              simp at h
          · rw [hcred] at h
            simp at h
  · rw [hv] at h
    simp at h

theorem run_program_ok_shape (w : World) (fuel : Nat) (path : String)
    (inp : PyDict) (opts : RunOptions) (tr2 : Trace) (out : PyDict)
    (h : run_program w fuel path inp opts = (tr2, Except.ok out)) :
    ∃ prog base post, w.programs path = Except.ok prog ∧
      w.valid prog.output_schema (JValue.jobj base) = true ∧
      out = (if post.isEmpty then base else dictUpdate base post) ∧
      (prog.python_post = none → post = []) := by
  unfold run_program at h
  rcases fuel with _ | fuel
  · simp [run_program_path] at h
  · rw [run_program_path] at h
    rcases hp : w.programs path with e | prog
    · rw [hp] at h
      simp at h
    · rw [hp] at h
      dsimp only at h
      obtain ⟨base, post, hval, hout, hnone⟩ :=
        run_single_ok_shape w (run_program_path w fuel) prog inp opts [] (Trace.mk [] [])
          tr2 out h
      exact ⟨prog, base, post, rfl, hval, hout, hnone⟩

-- ===== Claim C1 =====

/-- Claim C1 (corrected): every program execution that returns normally
returns either the extracted model output `base` alone or `dictUpdate base
post` for a post-script mapping `post`, where the pre-merge object `base`
validates against the program's declared `output_schema`; when no
post-script is declared the returned value is `base` itself and therefore
validates.  The claim as frozen - that the returned value validates even
after a non-empty post-script merge - is false: the merged value is not
re-checked (see the counterexample). -/
theorem c1_validated_before_post_merge (w : World) (fuel : Nat) (path : String)
    (inp : PyDict) (opts : RunOptions) (out : PyDict)
    (h : (run_program w fuel path inp opts).2 = Except.ok out) :
    ∃ prog base post, w.programs path = Except.ok prog ∧
      w.valid prog.output_schema (JValue.jobj base) = true ∧
      out = (if post.isEmpty then base else dictUpdate base post) ∧
      (prog.python_post = none → out = base) := by
  rcases hr : run_program w fuel path inp opts with ⟨tr2, r⟩
  rw [hr] at h
  dsimp only at h
  subst h
  obtain ⟨prog, base, post, hp, hv, hout, hnone⟩ :=
    run_program_ok_shape w fuel path inp opts tr2 out hr
  refine ⟨prog, base, post, hp, hv, hout, ?_⟩
  intro hpn
  rw [hnone hpn] at hout
  simpa using hout

set_option maxRecDepth 10000 in
/-- Witness for C1 at the Scenario-A world and program. -/
theorem c1_validated_before_post_merge_witness :
    ∃ prog base post, wA.programs "/apps/summary.rllm" = Except.ok prog ∧
      wA.valid prog.output_schema (JValue.jobj base) = true ∧
      [("summary", JValue.jstr "ok")] = (if post.isEmpty then base else dictUpdate base post) ∧
      (prog.python_post = none → [("summary", JValue.jstr "ok")] = base) :=
  c1_validated_before_post_merge wA 2 "/apps/summary.rllm" [("text", JValue.jstr "abc")]
    optsA [("summary", JValue.jstr "ok")] (by rfl)

set_option maxRecDepth 10000 in
/-- Counterexample to C1 as frozen: with a post-script that adds the key
`extra`, the value returned to the caller is the merged object, and that
object does not validate against `output_schema` (which declares
`additionalProperties: false`). -/
theorem c1_counterexample :
    (run_program wPost 2 "/apps/post.rllm" [("text", JValue.jstr "abc")] optsZero).2
      = Except.ok [("summary", JValue.jstr "ok"), ("extra", JValue.jstr "x")] ∧
    wPost.valid progPost.output_schema
      (JValue.jobj [("summary", JValue.jstr "ok"), ("extra", JValue.jstr "x")]) = false ∧
    wPost.programs "/apps/post.rllm" = Except.ok progPost :=
  ⟨by rfl, by rfl, by rfl⟩

theorem build_attempt_prompt_pos (r : String) (sch : JValue) (rec : String) (n : Nat) :
    build_attempt_prompt r sch rec (n + 1) = build_attempt_prompt r sch rec 1 := by
  unfold build_attempt_prompt
  rw [if_neg (Nat.succ_ne_zero n), if_neg Nat.one_ne_zero]

-- ===== Claim C3 =====

/-- Claim C3: for a single-node execution (no `uses`) with non-negative
`max_retries`: (i) at most `max_retries + 1` model invocations are made,
whatever the outcome; (ii) a normal return makes at least one invocation;
(iii) with `max_retries = 0` a normal return makes exactly one invocation;
and (iv) on the happy path reaching the attempt loop, if the model's replies
fail extraction retryably on the first `k` attempts (`k ≤ max_retries`) and
attempt `k+1` yields a payload whose extraction and post phase succeed,
exactly `k + 1` invocations occur and that payload is returned.
(When the context precheck fails on the first attempt the run makes zero
invocations - claim C5 - so the lower bound of 1 holds for normal returns,
not unconditionally.) -/
theorem c3_invocation_bounds :
    (∀ (w : World)
       (recurse : String → PyDict → RunOptions → List String → Trace → Trace × Except ErrorPayload PyDict)
       (prog : RLLMProgram) (inp : PyDict) (opts : RunOptions)
       (stack : List String) (tr tr2 : Trace) (r : Except ErrorPayload PyDict),
      prog.uses = [] → ¬ opts.max_retries < 0 →
      run_single w recurse prog inp opts stack tr = (tr2, r) →
      tr2.calls.length ≤ tr.calls.length + opts.max_retries.toNat + 1) ∧
    (∀ (w : World)
       (recurse : String → PyDict → RunOptions → List String → Trace → Trace × Except ErrorPayload PyDict)
       (prog : RLLMProgram) (inp : PyDict) (opts : RunOptions)
       (stack : List String) (tr tr2 : Trace) (out : PyDict),
      prog.uses = [] →
      run_single w recurse prog inp opts stack tr = (tr2, Except.ok out) →
      tr.calls.length + 1 ≤ tr2.calls.length) ∧
    (∀ (w : World)
       (recurse : String → PyDict → RunOptions → List String → Trace → Trace × Except ErrorPayload PyDict)
       (prog : RLLMProgram) (inp : PyDict) (opts : RunOptions)
       (stack : List String) (tr tr2 : Trace) (out : PyDict),
      prog.uses = [] → opts.max_retries = 0 →
      run_single w recurse prog inp opts stack tr = (tr2, Except.ok out) →
      tr2.calls.length = tr.calls.length + 1) ∧
    (∀ (w : World)
       (recurse : String → PyDict → RunOptions → List String → Trace → Trace × Except ErrorPayload PyDict)
       (prog : RLLMProgram) (inp : PyDict) (opts : RunOptions)
       (stack : List String) (tr : Trace) (k : Nat)
       (content : String) (pu : Option ProviderUsage) (lat : Nat)
       (final : PyDict) (model : String),
      ¬ opts.max_retries < 0 →
      ¬ opts.debug_prompt_wrap ≤ 0 →
      validate_json_schema_instance w.valid (JValue.jobj inp) prog.input_schema "input" = none →
      prog.uses = [] →
      prog.python_pre = none →
      prepare_model prog opts = Except.ok model →
      ensure_provider_credentials w model = none →
      strBeginsWith model "ollama/" = false →
      k < (opts.max_retries + 1).toNat →
      (∀ i, i < k → ∃ ci pui lati ei,
        w.completions (tr.calls.length + i) = ModelResponse.good ci pui lati ∧
        attempt_body w prog inp opts [] ci = Except.error ei ∧
        retryableCode ei.error_code = true) →
      w.completions (tr.calls.length + k) = ModelResponse.good content pu lat →
      attempt_body w prog inp opts [] content = Except.ok final →
      (∀ j, validate_context prog inp
        (build_attempt_prompt
          (render_template prog.prompt [("input", JValue.jobj inp), ("uses", JValue.jobj [])])
          prog.output_schema prog.recovery_prompt j) = none) →
      ∃ tr2, run_single w recurse prog inp opts stack tr = (tr2, Except.ok final) ∧
        tr2.calls.length = tr.calls.length + (k + 1)) := by
  refine ⟨?_, ?_, ?_, ?_⟩
  · intro w recurse prog inp opts stack tr tr2 r huses hmr h
    have hle := run_single_calls_le w recurse prog inp opts stack tr tr2 r huses h
    omega
  · intro w recurse prog inp opts stack tr tr2 out huses h
    exact run_single_ok_calls w recurse prog inp opts stack tr tr2 out huses h
  · intro w recurse prog inp opts stack tr tr2 out huses hmr0 h
    have hle := run_single_calls_le w recurse prog inp opts stack tr tr2 (Except.ok out) huses h
    have hge := run_single_ok_calls w recurse prog inp opts stack tr tr2 out huses h
    rw [hmr0] at hle
    omega
  · intro w recurse prog inp opts stack tr k content pu lat final model
      hmr hwrap hval huses hpre hpm hcred holl hk hfail hgood hbody hvall
    rw [run_single_happy_nopre w recurse prog inp opts stack tr model
      hmr hwrap hval huses hpre hpm hcred holl]
    exact attempt_loop_scenario w prog inp opts []
      (render_template prog.prompt [("input", JValue.jobj inp), ("uses", JValue.jobj [])])
      model k (opts.max_retries + 1).toNat 0 none (UsageMetrics.mk 0 0 0 0) tr
      content pu lat final hk hfail hgood hbody hvall

set_option maxRecDepth 10000 in
/-- Witness for C3, part (iv), at spec Scenario A: one retryable failure
(`not json`), then a compliant reply; exactly two invocations and the
compliant payload returned. -/
theorem c3_invocation_bounds_witness :
    ∃ tr2, run_single wA (run_program_path wA 1) progSummary
        [("text", JValue.jstr "abc")] optsA [] (Trace.mk [] [])
      = (tr2, Except.ok [("summary", JValue.jstr "ok")]) ∧
      tr2.calls.length = (Trace.mk [] []).calls.length + (1 + 1) :=
  c3_invocation_bounds.2.2.2 wA (run_program_path wA 1) progSummary
    [("text", JValue.jstr "abc")] optsA [] (Trace.mk [] []) 1
    "\x7b\"summary\":\"ok\"\x7d" (some ⟨some 10, some 6, some 16⟩) 7
    [("summary", JValue.jstr "ok")] "openai/gpt-4o-mini"
    (by decide) (by decide) (by rfl) (by rfl) (by rfl) (by rfl) (by rfl) (by rfl)
    (by decide)
    (fun i hi => by
      have hi0 : i = 0 := by omega
      subst hi0
      exact ⟨"not json", none, 5, notValidJsonError "not json", rfl, rfl, rfl⟩)
    (by rfl) (by rfl)
    (fun j => by
      cases j with
      | zero => rfl
      | succ n =>
        rw [build_attempt_prompt_pos]
        rfl)

-- ===== Claim C4 =====

/-- Claim C4: inside the attempt loop, the schema/parse class of failure -
exactly the codes RLLM_005 (output-schema mismatch), RLLM_006 (unparsable
JSON) and RLLM_007 (non-object top level) - is the only class that consumes
retry budget: such a failure of the attempt body is remembered as `last_err`
and the loop continues with one less remaining attempt, while any other
failure of the attempt body (e.g. an RLLM_009 script error) records a failed
run and re-raises immediately, and a transport/shape failure (RLLM_011)
re-raises immediately as well. -/
theorem c4_retry_budget_classes :
    (∀ c, retryableCode c = true ↔ (c = "RLLM_005" ∨ c = "RLLM_006" ∨ c = "RLLM_007")) ∧
    (∀ (w : World) (prog : RLLMProgram) (inp : PyDict) (opts : RunOptions)
       (dep : PyDict) (rendered model : String) (last_err : Option ErrorPayload)
       (usage : UsageMetrics) (attempt rem : Nat) (tr : Trace) (e2 : ErrorPayload)
       (content : String) (pu : Option ProviderUsage) (lat : Nat),
      validate_context prog inp
        (build_attempt_prompt rendered prog.output_schema prog.recovery_prompt attempt) = none →
      w.completions tr.calls.length = ModelResponse.good content pu lat →
      attempt_body w prog inp opts dep content = Except.error e2 →
      retryableCode e2.error_code = true →
      attempt_loop w prog inp opts dep rendered model last_err usage attempt
          (Nat.succ rem) tr
        = attempt_loop w prog inp opts dep rendered model (some e2)
            (extract_usage pu
              (build_attempt_prompt rendered prog.output_schema prog.recovery_prompt attempt)
              content lat)
            (attempt + 1) rem
            (Trace.mk (tr.calls ++ [ModelCall.mk model
              (build_attempt_prompt rendered prog.output_schema prog.recovery_prompt attempt)
              prog.llm_params]) tr.stats)) ∧
    (∀ (w : World) (prog : RLLMProgram) (inp : PyDict) (opts : RunOptions)
       (dep : PyDict) (rendered model : String) (last_err : Option ErrorPayload)
       (usage : UsageMetrics) (attempt rem : Nat) (tr : Trace) (e2 : ErrorPayload)
       (content : String) (pu : Option ProviderUsage) (lat : Nat),
      validate_context prog inp
        (build_attempt_prompt rendered prog.output_schema prog.recovery_prompt attempt) = none →
      w.completions tr.calls.length = ModelResponse.good content pu lat →
      attempt_body w prog inp opts dep content = Except.error e2 →
      retryableCode e2.error_code = false →
      attempt_loop w prog inp opts dep rendered model last_err usage attempt
          (Nat.succ rem) tr
        = (Trace.mk (tr.calls ++ [ModelCall.mk model
              (build_attempt_prompt rendered prog.output_schema prog.recovery_prompt attempt)
              prog.llm_params])
            (tr.stats ++ [statEntry prog model false false true
              (extract_usage pu
                (build_attempt_prompt rendered prog.output_schema prog.recovery_prompt attempt)
                content lat)]),
           Except.error e2)) ∧
    (∀ (w : World) (prog : RLLMProgram) (inp : PyDict) (opts : RunOptions)
       (dep : PyDict) (rendered model : String) (last_err : Option ErrorPayload)
       (usage : UsageMetrics) (attempt rem : Nat) (tr : Trace) (reason : String),
      validate_context prog inp
        (build_attempt_prompt rendered prog.output_schema prog.recovery_prompt attempt) = none →
      w.completions tr.calls.length = ModelResponse.bad reason →
      attempt_loop w prog inp opts dep rendered model last_err usage attempt
          (Nat.succ rem) tr
        = (Trace.mk (tr.calls ++ [ModelCall.mk model
              (build_attempt_prompt rendered prog.output_schema prog.recovery_prompt attempt)
              prog.llm_params]) tr.stats,
           Except.error (transportShapeError reason))) := by
  refine ⟨?_, ?_, ?_, ?_⟩
  · intro c
    unfold retryableCode
    constructor
    · intro h
      rcases Bool.or_eq_true_iff.mp h with h1 | h3
      · rcases Bool.or_eq_true_iff.mp h1 with h5 | h6
        · exact Or.inl (by simpa using h5)
        · exact Or.inr (Or.inl (by simpa using h6))
      · exact Or.inr (Or.inr (by simpa using h3))
    · intro h
      rcases h with h | h | h
      all_goals subst h
      all_goals rfl
  · intro w prog inp opts dep rendered model last_err usage attempt rem tr e2
      content pu lat hv hc hb hr
    rw [attempt_loop.eq_def]
    dsimp only
    rw [hv]
    dsimp only
    rw [hc]
    dsimp only
    rw [hb]
    dsimp only
    rw [if_pos hr]
  · intro w prog inp opts dep rendered model last_err usage attempt rem tr e2
      content pu lat hv hc hb hr
    rw [attempt_loop.eq_def]
    dsimp only
    rw [hv]
    dsimp only
    rw [hc]
    dsimp only
    rw [hb]
    dsimp only
    rw [if_neg (by rw [hr]; exact Bool.false_ne_true)]
  · intro w prog inp opts dep rendered model last_err usage attempt rem tr reason hv hc
    rw [attempt_loop.eq_def]
    dsimp only
    rw [hv]
    dsimp only
    rw [hc]

set_option maxRecDepth 10000 in
/-- Witness for C4, retryable branch, at spec Scenario A attempt 0: the
RLLM_006 failure on `not json` is remembered and the loop recurses. -/
theorem c4_retry_budget_classes_witness :
    attempt_loop wA progSummary [("text", JValue.jstr "abc")] optsA []
        (render_template progSummary.prompt
          [("input", JValue.jobj [("text", JValue.jstr "abc")]), ("uses", JValue.jobj [])])
        "openai/gpt-4o-mini" none (UsageMetrics.mk 0 0 0 0) 0 (Nat.succ 1) (Trace.mk [] [])
      = attempt_loop wA progSummary [("text", JValue.jstr "abc")] optsA []
          (render_template progSummary.prompt
            [("input", JValue.jobj [("text", JValue.jstr "abc")]), ("uses", JValue.jobj [])])
          "openai/gpt-4o-mini" (some (notValidJsonError "not json"))
          (extract_usage none
            (build_attempt_prompt
              (render_template progSummary.prompt
                [("input", JValue.jobj [("text", JValue.jstr "abc")]), ("uses", JValue.jobj [])])
              progSummary.output_schema progSummary.recovery_prompt 0)
            "not json" 5)
          (0 + 1) 1
          (Trace.mk [ModelCall.mk "openai/gpt-4o-mini"
            (build_attempt_prompt
              (render_template progSummary.prompt
                [("input", JValue.jobj [("text", JValue.jstr "abc")]), ("uses", JValue.jobj [])])
              progSummary.output_schema progSummary.recovery_prompt 0)
            progSummary.llm_params] []) :=
  c4_retry_budget_classes.2.1 wA progSummary [("text", JValue.jstr "abc")] optsA []
    (render_template progSummary.prompt
      [("input", JValue.jobj [("text", JValue.jstr "abc")]), ("uses", JValue.jobj [])])
    "openai/gpt-4o-mini" none (UsageMetrics.mk 0 0 0 0) 0 1 (Trace.mk [] [])
    (notValidJsonError "not json") "not json" none 5
    (by rfl) (by rfl) (by rfl) (by rfl)

-- ===== Claim C5 =====

/-- Claim C5: before each attempt invokes the model, the estimated token
cost of the serialized input payload plus that attempt's full prompt is
checked against `max_context_window`; a failing check (i) is exactly the
RLLM_012 context-exceeded error carrying that estimate, (ii) is not in the
retryable class, (iii) makes the attempt loop fail immediately with the
trace unchanged even when attempts remain, and (iv) on the happy path
(single-node, no pre-script) a first-attempt overflow makes the whole
execution fail with the trace unchanged - zero model invocations. -/
theorem c5_context_precheck :
    (∀ (prog : RLLMProgram) (inp : PyDict) (prompt : String) (e : ErrorPayload),
      validate_context prog inp prompt = some e →
      e = contextWindowExceededError (estimate_context_tokens inp prompt)
            prog.max_context_window prog.name ∧
      e.error_code = "RLLM_012" ∧
      retryableCode e.error_code = false ∧
      prog.max_context_window < estimate_context_tokens inp prompt) ∧
    (∀ (w : World) (prog : RLLMProgram) (inp : PyDict) (opts : RunOptions)
       (dep : PyDict) (rendered model : String) (last_err : Option ErrorPayload)
       (usage : UsageMetrics) (attempt rem : Nat) (tr : Trace),
      prog.max_context_window < estimate_context_tokens inp
        (build_attempt_prompt rendered prog.output_schema prog.recovery_prompt attempt) →
      attempt_loop w prog inp opts dep rendered model last_err usage attempt
          (Nat.succ rem) tr
        = (tr, Except.error (contextWindowExceededError
            (estimate_context_tokens inp
              (build_attempt_prompt rendered prog.output_schema prog.recovery_prompt attempt))
            prog.max_context_window prog.name))) ∧
    (∀ (w : World)
       (recurse : String → PyDict → RunOptions → List String → Trace → Trace × Except ErrorPayload PyDict)
       (prog : RLLMProgram) (inp : PyDict) (opts : RunOptions)
       (stack : List String) (tr : Trace) (model : String),
      ¬ opts.max_retries < 0 →
      ¬ opts.debug_prompt_wrap ≤ 0 →
      validate_json_schema_instance w.valid (JValue.jobj inp) prog.input_schema "input" = none →
      prog.uses = [] →
      prog.python_pre = none →
      prepare_model prog opts = Except.ok model →
      ensure_provider_credentials w model = none →
      strBeginsWith model "ollama/" = false →
      prog.max_context_window < estimate_context_tokens inp
        (build_attempt_prompt
          (render_template prog.prompt [("input", JValue.jobj inp), ("uses", JValue.jobj [])])
          prog.output_schema prog.recovery_prompt 0) →
      run_single w recurse prog inp opts stack tr
        = (tr, Except.error (contextWindowExceededError
            (estimate_context_tokens inp
              (build_attempt_prompt
                (render_template prog.prompt [("input", JValue.jobj inp), ("uses", JValue.jobj [])])
                prog.output_schema prog.recovery_prompt 0))
            prog.max_context_window prog.name))) := by
  refine ⟨?_, ?_, ?_⟩
  · intro prog inp prompt e h
    unfold validate_context at h
    dsimp only at h
    split at h
    · simp only [Option.some.injEq] at h
      subst h
      refine ⟨rfl, rfl, rfl, by omega⟩
    · exact Option.noConfusion h
  · intro w prog inp opts dep rendered model last_err usage attempt rem tr h
    exact attempt_loop_context_exceeded w prog inp opts dep rendered model
      last_err usage attempt rem tr h
  · intro w recurse prog inp opts stack tr model
      hmr hwrap hval huses hpre hpm hcred holl hbig
    rw [run_single_happy_nopre w recurse prog inp opts stack tr model
      hmr hwrap hval huses hpre hpm hcred holl]
    have hn : (opts.max_retries + 1).toNat = Nat.succ opts.max_retries.toNat := by omega
    rw [hn]
    exact attempt_loop_context_exceeded w prog inp opts []
      (render_template prog.prompt [("input", JValue.jobj inp), ("uses", JValue.jobj [])])
      model none (UsageMetrics.mk 0 0 0 0) 0 opts.max_retries.toNat tr hbig

set_option maxRecDepth 10000 in
/-- Witness for C5, part (iv), at the tiny-window program: the estimate is
108 against a window of 10, the run fails with RLLM_012 and the trace
stays empty - zero model invocations. -/
theorem c5_context_precheck_witness :
    run_single wBig (run_program_path wBig 1) progBig [("text", JValue.jstr "abc")]
        optsA [] (Trace.mk [] [])
      = (Trace.mk [] [], Except.error (contextWindowExceededError
          (estimate_context_tokens [("text", JValue.jstr "abc")]
            (build_attempt_prompt
              (render_template progBig.prompt
                [("input", JValue.jobj [("text", JValue.jstr "abc")]), ("uses", JValue.jobj [])])
              progBig.output_schema progBig.recovery_prompt 0))
          progBig.max_context_window progBig.name)) :=
  c5_context_precheck.2.2 wBig (run_program_path wBig 1) progBig
    [("text", JValue.jstr "abc")] optsA [] (Trace.mk [] []) "m"
    (by decide) (by decide) (by rfl) (by rfl) (by rfl) (by rfl) (by rfl) (by rfl)
    (by decide)

-- ===== Claim C6 =====

/-- Claim C6 (corrected): the stats collaborator records one usage/outcome
entry per run outcome, not one per model invocation attempt: across any
execution of the attempt loop the stats list grows by at most one row; a
normal return appends exactly one success row, and retry exhaustion
(RLLM_013) appends exactly one failure row - even when several invocations
were made.  The claim as frozen - one entry per attempt, two entries for a
fail-then-succeed run - is false: a retryable attempt failure records no
row (see the counterexample: two invocations, one row). -/
theorem c6_stats_per_outcome :
    (∀ (w : World) (prog : RLLMProgram) (inp : PyDict) (opts : RunOptions)
       (dep : PyDict) (rendered model : String) (remaining attempt : Nat)
       (last_err : Option ErrorPayload) (usage : UsageMetrics) (tr : Trace),
      ∃ ext, (attempt_loop w prog inp opts dep rendered model last_err usage
          attempt remaining tr).1.stats = tr.stats ++ ext ∧ ext.length ≤ 1) ∧
    (∀ (w : World) (prog : RLLMProgram) (inp : PyDict) (opts : RunOptions)
       (dep : PyDict) (rendered model : String) (remaining attempt : Nat)
       (last_err : Option ErrorPayload) (usage : UsageMetrics) (tr tr2 : Trace)
       (out : PyDict),
      attempt_loop w prog inp opts dep rendered model last_err usage attempt
          remaining tr = (tr2, Except.ok out) →
      ∃ u, tr2.stats = tr.stats ++ [statEntry prog model true true true u]) ∧
    (∀ (w : World) (prog : RLLMProgram) (inp : PyDict) (opts : RunOptions)
       (dep : PyDict) (rendered model : String) (remaining attempt : Nat)
       (last_err : Option ErrorPayload) (usage : UsageMetrics) (tr tr2 : Trace)
       (e : ErrorPayload),
      attempt_loop w prog inp opts dep rendered model last_err usage attempt
          remaining tr = (tr2, Except.error e) →
      e.error_code = "RLLM_013" →
      ∃ u, tr2.stats = tr.stats ++ [statEntry prog model false false true u]) := by
  refine ⟨?_, ?_, ?_⟩
  · intro w prog inp opts dep rendered model remaining attempt last_err usage tr
    exact attempt_loop_stats_extend w prog inp opts dep rendered model
      remaining attempt last_err usage tr
  · intro w prog inp opts dep rendered model remaining attempt last_err usage tr tr2 out h
    exact attempt_loop_ok_stats w prog inp opts dep rendered model
      remaining attempt last_err usage tr tr2 out h
  · intro w prog inp opts dep rendered model remaining attempt last_err usage tr tr2 e h he
    exact attempt_loop_err13_stats w prog inp opts dep rendered model
      remaining attempt last_err usage tr tr2 e h he

set_option maxRecDepth 10000 in
/-- Witness for C6 at spec Scenario A: the fail-then-succeed loop run
appends exactly one success row. -/
theorem c6_stats_per_outcome_witness :
    ∃ u, (attempt_loop wA progSummary [("text", JValue.jstr "abc")] optsA []
        (render_template progSummary.prompt
          [("input", JValue.jobj [("text", JValue.jstr "abc")]), ("uses", JValue.jobj [])])
        "openai/gpt-4o-mini" none (UsageMetrics.mk 0 0 0 0) 0 2 (Trace.mk [] [])).1.stats
      = (Trace.mk [] []).stats
        ++ [statEntry progSummary "openai/gpt-4o-mini" true true true u] :=
  c6_stats_per_outcome.2.1 wA progSummary [("text", JValue.jstr "abc")] optsA []
    (render_template progSummary.prompt
      [("input", JValue.jobj [("text", JValue.jstr "abc")]), ("uses", JValue.jobj [])])
    "openai/gpt-4o-mini" 2 0 none (UsageMetrics.mk 0 0 0 0) (Trace.mk [] [])
    (attempt_loop wA progSummary [("text", JValue.jstr "abc")] optsA []
      (render_template progSummary.prompt
        [("input", JValue.jobj [("text", JValue.jstr "abc")]), ("uses", JValue.jobj [])])
      "openai/gpt-4o-mini" none (UsageMetrics.mk 0 0 0 0) 0 2 (Trace.mk [] [])).1
    [("summary", JValue.jstr "ok")] (by rfl)

set_option maxRecDepth 10000 in
/-- Counterexample to C6 as frozen: Scenario A makes two model invocations
(a retryable failure, then success) but records exactly one stats row, not
two - the retryable attempt failure records nothing. -/
theorem c6_counterexample :
    (run_program wA 2 "/apps/summary.rllm" [("text", JValue.jstr "abc")] optsA).1.calls.length
      = 2 ∧
    (run_program wA 2 "/apps/summary.rllm" [("text", JValue.jstr "abc")] optsA).1.stats.length
      = 1 ∧
    (run_program wA 2 "/apps/summary.rllm" [("text", JValue.jstr "abc")] optsA).2
      = Except.ok [("summary", JValue.jstr "ok")] :=
  ⟨by rfl, by rfl, by rfl⟩

-- ===== Claim C10 =====

/-- Claim C10: the pre-script's returned mapping is merged into the
rendering context by a plain key-wise update in which the script's keys win:
a key present in the script mapping (such as `input` or `uses`) replaces the
engine-provided binding, keys it does not mention are untouched, and all
subsequent prompt rendering - including the first attempt prompt actually
sent - uses the updated context. -/
theorem c10_pre_merge_key_wins :
    (∀ (d u : PyDict) (k : String) (v : JValue),
      (u.map Prod.fst).Nodup → dictLookup k u = some v →
      dictLookup k (dictUpdate d u) = some v) ∧
    (∀ (d u : PyDict) (k : String),
      dictContains k u = false →
      dictLookup k (dictUpdate d u) = dictLookup k d) ∧
    (∀ (w : World)
       (recurse : String → PyDict → RunOptions → List String → Trace → Trace × Except ErrorPayload PyDict)
       (prog : RLLMProgram) (inp : PyDict) (opts : RunOptions)
       (stack : List String) (tr : Trace) (model code : String) (m : PyDict),
      ¬ opts.max_retries < 0 →
      ¬ opts.debug_prompt_wrap ≤ 0 →
      validate_json_schema_instance w.valid (JValue.jobj inp) prog.input_schema "input" = none →
      prog.uses = [] →
      prog.python_pre = some code →
      ¬ code = "" →
      execute_python_block w code
        [("input", JValue.jobj inp), ("uses", JValue.jobj [])] "pre" opts.trusted_python
        = Except.ok m →
      prepare_model prog opts = Except.ok model →
      ensure_provider_credentials w model = none →
      strBeginsWith model "ollama/" = false →
      run_single w recurse prog inp opts stack tr
        = attempt_loop w prog inp opts []
            (render_template prog.prompt
              (dictUpdate [("input", JValue.jobj inp), ("uses", JValue.jobj [])] m))
            model none (UsageMetrics.mk 0 0 0 0) 0 (opts.max_retries + 1).toNat tr) ∧
    (∀ (w : World)
       (recurse : String → PyDict → RunOptions → List String → Trace → Trace × Except ErrorPayload PyDict)
       (prog : RLLMProgram) (inp : PyDict) (opts : RunOptions)
       (stack : List String) (tr tr2 : Trace) (r : Except ErrorPayload PyDict)
       (model code : String) (m : PyDict),
      ¬ opts.max_retries < 0 →
      ¬ opts.debug_prompt_wrap ≤ 0 →
      validate_json_schema_instance w.valid (JValue.jobj inp) prog.input_schema "input" = none →
      prog.uses = [] →
      prog.python_pre = some code →
      ¬ code = "" →
      execute_python_block w code
        [("input", JValue.jobj inp), ("uses", JValue.jobj [])] "pre" opts.trusted_python
        = Except.ok m →
      prepare_model prog opts = Except.ok model →
      ensure_provider_credentials w model = none →
      strBeginsWith model "ollama/" = false →
      run_single w recurse prog inp opts stack tr = (tr2, r) →
      validate_context prog inp
        (build_attempt_prompt
          (render_template prog.prompt
            (dictUpdate [("input", JValue.jobj inp), ("uses", JValue.jobj [])] m))
          prog.output_schema prog.recovery_prompt 0) = none →
      ∃ rest, tr2.calls = tr.calls ++
        ModelCall.mk model
          (build_attempt_prompt
            (render_template prog.prompt
              (dictUpdate [("input", JValue.jobj inp), ("uses", JValue.jobj [])] m))
            prog.output_schema prog.recovery_prompt 0)
          prog.llm_params :: rest) := by
  refine ⟨?_, ?_, ?_, ?_⟩
  · intro d u k v hnd h
    exact dictUpdate_lookup_of_mem u d k v hnd h
  · intro d u k h
    exact dictUpdate_lookup_not_contains u d k h
  · intro w recurse prog inp opts stack tr model code m
      hmr hwrap hval huses hpre hcode hexec hpm hcred holl
    exact run_single_happy_pre w recurse prog inp opts stack tr model code m
      hmr hwrap hval huses hpre hcode hexec hpm hcred holl
  · intro w recurse prog inp opts stack tr tr2 r model code m
      hmr hwrap hval huses hpre hcode hexec hpm hcred holl h hv0
    rw [run_single_happy_pre w recurse prog inp opts stack tr model code m
      hmr hwrap hval huses hpre hcode hexec hpm hcred holl] at h
    rcases hn : (opts.max_retries + 1).toNat with _ | n
    · exfalso
      omega
    · rw [hn] at h
      exact attempt_loop_first_call w prog inp opts []
        (render_template prog.prompt
          (dictUpdate [("input", JValue.jobj inp), ("uses", JValue.jobj [])] m))
        model 0 none (UsageMetrics.mk 0 0 0 0) n tr tr2 r h hv0

set_option maxRecDepth 10000 in
/-- Witness for C10, last part, at the `input`-rebinding pre-script world:
the first call's prompt is built from the updated context (rendering to
`Say: override`, not `Say: abc`). -/
theorem c10_pre_merge_key_wins_witness :
    ∃ rest, (run_single wPre (run_program_path wPre 1) progPre
        [("text", JValue.jstr "abc")] optsZero [] (Trace.mk [] [])).1.calls
      = (Trace.mk [] []).calls ++
        ModelCall.mk "m"
          (build_attempt_prompt
            (render_template progPre.prompt
              (dictUpdate
                [("input", JValue.jobj [("text", JValue.jstr "abc")]), ("uses", JValue.jobj [])]
                [("input", JValue.jobj [("text", JValue.jstr "override")])]))
            progPre.output_schema progPre.recovery_prompt 0)
          progPre.llm_params :: rest :=
  c10_pre_merge_key_wins.2.2.2 wPre (run_program_path wPre 1) progPre
    [("text", JValue.jstr "abc")] optsZero []
    (Trace.mk [] [])
    (run_single wPre (run_program_path wPre 1) progPre
      [("text", JValue.jstr "abc")] optsZero [] (Trace.mk [] [])).1
    (run_single wPre (run_program_path wPre 1) progPre
      [("text", JValue.jstr "abc")] optsZero [] (Trace.mk [] [])).2
    "m" "result = \x7b\"input\": \x7b\"text\": \"override\"\x7d\x7d"
    [("input", JValue.jobj [("text", JValue.jstr "override")])]
    (by decide) (by decide) (by rfl) (by rfl) (by rfl) (by decide) (by rfl)
    (by rfl) (by rfl) (by rfl) (by rfl) (by rfl)
